import Mathlib

/-!
# The CPU core of `nts` (`src/cpu.c`)

A shallow embedding of `cpu_init`, `cpu_cycle`, `cpu_memory_map_read` and
`cpu_memory_map_write`, followed by theorems about them.

Conventions of the embedding:

* C unsigned integers are natural numbers.  Where the C code can leave the range
  of the type it computes in, the reduction is written out (`% 256` for
  `uint8_t`, `% 65536` for `uint16_t`, `% 2 ^ 32` for `uint32_t`).
* `CPU_t *` is passed and returned as a value; the picture unit the structure
  points to is a nested record.
* Indexing `prg_data` outside the cartridge image has no defined result in C, so
  the bus read returns an `Option` and `cpu_cycle` inherits it.
-/

namespace NTS

/-! ## Data model -/

/-- Modelled from the spec: the constant is declared in `cpu.h`, which is not
part of the sources at hand.  The spec maps `0x0000–0x1FFF` to system RAM by
"address modulo RAM size (3-fold mirror)", and the comment in
`cpu_memory_map_read` says that "the 2KiB of system memory is mapped from
$0000-$07FF", hence `0x800`. -/
def CPU_MEMORY_SIZE : Nat := 0x800

/-- The register surface of the picture unit.  The structure is declared in
`ppu.h` (not at hand); these are the nine registers `cpu.c` reads or writes. -/
structure PPU_t where
  reg_PPUCTRL : Nat
  reg_PPUMASK : Nat
  reg_PPUSTATUS : Nat
  reg_OAMADDR : Nat
  reg_OAMDATA : Nat
  reg_PPUSCROLL : Nat
  reg_PPUADDR : Nat
  reg_PPUDATA : Nat
  reg_OAMDMA : Nat
  deriving DecidableEq, Repr

/-- The audio unit.  `cpu.c` only stores the pointer returned by `apu_init` and
never looks inside, so its registers are kept as an uninterpreted list. -/
structure APU_t where
  regs : List Nat
  deriving DecidableEq, Repr

/-- The cartridge: `prg_data` is the program image, one entry per byte. -/
structure ROM_t where
  prg_data : List Nat
  deriving DecidableEq, Repr

/-- The processor state of `cpu.c`.  `memory i` is the content of cell `i` of the
array `memory[CPU_MEMORY_SIZE]`; the code only touches cells
`address % CPU_MEMORY_SIZE`. -/
structure CPU_t where
  memory : Nat → Nat
  reg_A : Nat
  reg_X : Nat
  reg_Y : Nat
  reg_P : Nat
  reg_S : Nat
  reg_PC : Nat
  ppu : PPU_t
  apu : APU_t
  cartridge : ROM_t
  cartridge_bank : Nat

/-! ## Operations -/

/-- The function `cpu_init`.  `ppu_init ()` and `apu_init ()` live outside `cpu.c`; what they
return is passed in as `ppu0` and `apu0`. -/
def cpu_init (ppu0 : PPU_t) (apu0 : APU_t) (cartridge : ROM_t) : CPU_t :=
  { memory := fun _ => 0
    reg_A := 0
    reg_X := 0
    reg_Y := 0
    reg_P := 0x34
    reg_S := 0xFD
    reg_PC := 0x8000
    ppu := ppu0
    apu := apu0
    cartridge := cartridge
    cartridge_bank := 0 }

/-- The function `cpu_memory_map_read`.  `PRG_PAGE_SIZE` is declared in a header that is not
at hand and is taken as a parameter. -/
def cpu_memory_map_read (PRG_PAGE_SIZE : Nat) (cpu : CPU_t) (address : Nat) : Option Nat :=
  if address < 0x2000 then
    some (cpu.memory (address % CPU_MEMORY_SIZE))
  else if address ≥ 0x2000 ∧ address < 0x4000 then
    if address % 8 = 2 then some cpu.ppu.reg_PPUSTATUS
    else if address % 8 = 4 then some cpu.ppu.reg_OAMDATA
    else if address % 8 = 7 then some cpu.ppu.reg_PPUDATA
    else some 0
  else if address ≥ 0x4000 ∧ address < 0x4017 then
    some 0
  else if address ≥ 0x4018 ∧ address < 0x401F then
    some 0
  else if address ≥ 0x4020 ∧ address < 0x5FFF then
    some 0
  else if address ≥ 0x6000 ∧ address < 0x7FFF then
    some 0
  else if address ≥ 0x8000 ∧ address < 0xFFFF then
    let prg_offset := (cpu.cartridge_bank * PRG_PAGE_SIZE) % 2 ^ 32
    cpu.cartridge.prg_data[(prg_offset + (address - 0x8000)) % 2 ^ 32]?
  else
    some 0

/-- The function `cpu_memory_map_write`. -/
def cpu_memory_map_write (cpu : CPU_t) (address value : Nat) : CPU_t :=
  if address < 0x2000 then
    { cpu with memory := fun i => if i = address % CPU_MEMORY_SIZE then value else cpu.memory i }
  else if address ≥ 0x2000 ∧ address < 0x4000 then
    if address % 8 = 0 then { cpu with ppu := { cpu.ppu with reg_PPUCTRL := value } }
    else if address % 8 = 1 then { cpu with ppu := { cpu.ppu with reg_PPUMASK := value } }
    else if address % 8 = 3 then { cpu with ppu := { cpu.ppu with reg_OAMADDR := value } }
    else if address % 8 = 4 then { cpu with ppu := { cpu.ppu with reg_OAMDATA := value } }
    else if address % 8 = 5 then { cpu with ppu := { cpu.ppu with reg_PPUSCROLL := value } }
    else if address % 8 = 6 then { cpu with ppu := { cpu.ppu with reg_PPUADDR := value } }
    else if address % 8 = 7 then { cpu with ppu := { cpu.ppu with reg_PPUDATA := value } }
    else cpu
  else
    -- the audio/IO block does not return, control falls through to the blocks below
    let cpu1 :=
      if address ≥ 0x4000 ∧ address < 0x4017 then
        if address = 0x4014 then { cpu with ppu := { cpu.ppu with reg_OAMDMA := value } }
        else cpu
      else cpu
    if address ≥ 0x4020 ∧ address < 0x5FFF then cpu1
    else if address ≥ 0x6000 ∧ address < 0x7FFF then cpu1
    else cpu1

/-- The expression `cpu_memory_map_read(cpu, cpu->reg_PC++)`: the byte at the
program counter, and the state with the 16-bit program counter incremented. -/
def fetch (PRG_PAGE_SIZE : Nat) (cpu : CPU_t) : Option (Nat × CPU_t) :=
  match cpu_memory_map_read PRG_PAGE_SIZE cpu cpu.reg_PC with
  | none => none
  | some b => some (b, { cpu with reg_PC := (cpu.reg_PC + 1) % 65536 })

/-- The statement `cpu->reg_A += m` on the 8-bit accumulator. -/
def add_A (cpu : CPU_t) (m : Nat) : CPU_t :=
  { cpu with reg_A := (cpu.reg_A + m) % 256 }

/-- The function `cpu_cycle`: the cycle count and the state after the step.  Address
expressions are computed in `int` and converted to the `uint16_t` parameter of
`cpu_memory_map_read`, hence `% 65536` and no reduction modulo 256. -/
def cpu_cycle (PRG_PAGE_SIZE : Nat) (cpu : CPU_t) : Option (Nat × CPU_t) :=
  match fetch PRG_PAGE_SIZE cpu with
  | none => none
  | some (opcode, cpu) =>
    if opcode = 0x69 then
      match fetch PRG_PAGE_SIZE cpu with
      | none => none
      | some (arg1, cpu) => some (2, add_A cpu arg1)
    else if opcode = 0x65 then
      match fetch PRG_PAGE_SIZE cpu with
      | none => none
      | some (arg1, cpu) =>
        match cpu_memory_map_read PRG_PAGE_SIZE cpu arg1 with
        | none => none
        | some m => some (3, add_A cpu m)
    else if opcode = 0x75 then
      match fetch PRG_PAGE_SIZE cpu with
      | none => none
      | some (arg1, cpu) =>
        match cpu_memory_map_read PRG_PAGE_SIZE cpu ((arg1 + cpu.reg_X) % 65536) with
        | none => none
        | some m => some (4, add_A cpu m)
    else if opcode = 0x6D then
      match fetch PRG_PAGE_SIZE cpu with
      | none => none
      | some (arg1, cpu) =>
        match fetch PRG_PAGE_SIZE cpu with
        | none => none
        | some (arg2, cpu) =>
          let absolute_addr := ((arg1 <<< 8) ||| arg2) % 65536
          match cpu_memory_map_read PRG_PAGE_SIZE cpu absolute_addr with
          | none => none
          | some m => some (4, add_A cpu m)
    else if opcode = 0x76 then
      match fetch PRG_PAGE_SIZE cpu with
      | none => none
      | some (arg1, cpu) =>
        match fetch PRG_PAGE_SIZE cpu with
        | none => none
        | some (arg2, cpu) =>
          let absolute_addr := ((arg1 <<< 8) ||| arg2) % 65536
          match cpu_memory_map_read PRG_PAGE_SIZE cpu ((absolute_addr + cpu.reg_X) % 65536) with
          | none => none
          | some m => some (4, add_A cpu m)
    else if opcode = 0x79 then
      match fetch PRG_PAGE_SIZE cpu with
      | none => none
      | some (arg1, cpu) =>
        match fetch PRG_PAGE_SIZE cpu with
        | none => none
        | some (arg2, cpu) =>
          let absolute_addr := ((arg1 <<< 8) ||| arg2) % 65536
          match cpu_memory_map_read PRG_PAGE_SIZE cpu ((absolute_addr + cpu.reg_Y) % 65536) with
          | none => none
          | some m => some (4, add_A cpu m)
    else if opcode = 0x61 then
      match fetch PRG_PAGE_SIZE cpu with
      | none => none
      | some (arg1, cpu) =>
        match cpu_memory_map_read PRG_PAGE_SIZE cpu ((arg1 + cpu.reg_X) % 65536) with
        | none => none
        | some m => some (6, add_A cpu m)
    else if opcode = 0x71 then
      match fetch PRG_PAGE_SIZE cpu with
      | none => none
      | some (arg1, cpu) =>
        match cpu_memory_map_read PRG_PAGE_SIZE cpu ((arg1 + cpu.reg_X) % 65536) with
        | none => none
        | some m => some (5, add_A cpu m)
    else
      some (2, cpu)


/-! ## Frame of a step -/

/-- The components of the state that neither a fetch nor an addition to the
accumulator touches. -/
def SameButAPC (s s1 : CPU_t) : Prop :=
  s1.memory = s.memory ∧ s1.reg_X = s.reg_X ∧ s1.reg_Y = s.reg_Y ∧ s1.reg_P = s.reg_P ∧
  s1.reg_S = s.reg_S ∧ s1.ppu = s.ppu ∧ s1.apu = s.apu ∧ s1.cartridge = s.cartridge ∧
  s1.cartridge_bank = s.cartridge_bank

/-! ## States reachable from power-on -/

/-- The states the machine can be in after power-on with the cartridge
`cartridge`: the result of `cpu_init`, closed under steps of `cpu_cycle` that
return and under `cpu_memory_map_write` at any address with any value. -/
inductive Reachable (PRG_PAGE_SIZE : Nat) (ppu0 : PPU_t) (apu0 : APU_t) (cartridge : ROM_t) :
    CPU_t → Prop
  | init : Reachable PRG_PAGE_SIZE ppu0 apu0 cartridge (cpu_init ppu0 apu0 cartridge)
  | cycle {s s1 : CPU_t} {n : Nat} :
      Reachable PRG_PAGE_SIZE ppu0 apu0 cartridge s →
      cpu_cycle PRG_PAGE_SIZE s = some (n, s1) →
      Reachable PRG_PAGE_SIZE ppu0 apu0 cartridge s1
  | write {s : CPU_t} (address value : Nat) :
      Reachable PRG_PAGE_SIZE ppu0 apu0 cartridge s →
      Reachable PRG_PAGE_SIZE ppu0 apu0 cartridge (cpu_memory_map_write s address value)

/-! ## Sample configurations -/

/-- A picture unit with recognisable register contents. -/
def ppu_demo : PPU_t :=
  { reg_PPUCTRL := 0x11, reg_PPUMASK := 0x12, reg_PPUSTATUS := 0x80, reg_OAMADDR := 0x14,
    reg_OAMDATA := 0x21, reg_PPUSCROLL := 0x16, reg_PPUADDR := 0x17, reg_PPUDATA := 0x42,
    reg_OAMDMA := 0x19 }

/-- An audio unit without registers. -/
def apu_demo : APU_t := { regs := [] }

/-- A cartridge of two pages of four bytes. -/
def rom_demo : ROM_t := { prg_data := [0x69, 0x05, 0xEA, 0xEA, 0x10, 0x11, 0x12, 0x13] }

/-- The machine after power-on with `rom_demo`. -/
def cpu_demo : CPU_t := cpu_init ppu_demo apu_demo rom_demo

/-- A cartridge image of 32 KiB of zero bytes. -/
def rom_zero : ROM_t := { prg_data := List.replicate 0x8000 0 }

/-- A cartridge image of 32 KiB whose last byte is `0xEA` and all others zero. -/
def rom_top : ROM_t := { prg_data := List.replicate 0x7FFF 0 ++ [0xEA] }

/-- The state of `cpu_demo` after its first instruction, `ADC #$05`. -/
def cpu_demo_step : CPU_t := { cpu_demo with reg_A := 5, reg_PC := 0x8002 }

/-- A cartridge holding the single instruction `ADC $FF,X`. -/
def rom_zpx : ROM_t := { prg_data := [0x75, 0xFF] }

/-- The machine after power-on with `rom_zpx`, with `X = 2`, after the byte `7`
was written at `0x0001` and the byte `9` at `0x0101`. -/
def cpu_zpx : CPU_t :=
  cpu_memory_map_write
    (cpu_memory_map_write { cpu_init ppu_demo apu_demo rom_zpx with reg_X := 2 } 0x0001 7)
    0x0101 9

/-! ## Cartridge images that cover the mapped window -/

/-- The cartridge image holds at least `cartridge_bank * PRG_PAGE_SIZE + 0x7FFF`
bytes: every offset the bus can form for an address in `[0x8000, 0xFFFE]` lies
inside the image. -/
def WindowCovered (PRG_PAGE_SIZE : Nat) (cpu : CPU_t) : Prop :=
  cpu.cartridge_bank * PRG_PAGE_SIZE + 0x7FFF ≤ cpu.cartridge.prg_data.length

instance (PRG_PAGE_SIZE : Nat) (cpu : CPU_t) : Decidable (WindowCovered PRG_PAGE_SIZE cpu) :=
  Nat.decLe _ _

/-- The opcodes `cpu_cycle` dispatches on. -/
def dispatch_table : List Nat := [0x69, 0x65, 0x75, 0x6D, 0x76, 0x79, 0x61, 0x71]

/-- A 32 KiB cartridge image that starts with the bytes `prog` and is zero after
them. -/
def rom_of (prog : List Nat) : ROM_t :=
  { prg_data := prog ++ List.replicate (0x8000 - prog.length) 0 }

/-- The machine after power-on with the program `prog` at the entry point. -/
def cpu_of (prog : List Nat) : CPU_t := cpu_init ppu_demo apu_demo (rom_of prog)

/-- The absolute add `6D 01 02` at the entry point, the byte `7` at `0x0201` and
the byte `9` at `0x0102`. -/
def cpu_abs : CPU_t :=
  cpu_memory_map_write (cpu_memory_map_write (cpu_of [0x6D, 0x01, 0x02]) 0x0201 7) 0x0102 9

/-- The immediate add `69 05` at the entry point, with the carry flag set
(`P = 0x35`) and `A = 0`. -/
def cpu_carry : CPU_t := { cpu_of [0x69, 0x05] with reg_P := 0x35 }

/-- The immediate add `69 50` at the entry point, with `A = 0x50` and carry
clear (`P = 0x34`). -/
def cpu_5050 : CPU_t := { cpu_of [0x69, 0x50] with reg_A := 0x50 }

/-- The immediate add `69 01` at the entry point, with `A = 0xFF` and carry
clear (`P = 0x34`). -/
def cpu_ff01 : CPU_t := { cpu_of [0x69, 0x01] with reg_A := 0xFF }

/-- The absolute,X add `76 01 01` at the entry point with index `x`: the base
address is `0x0101` whichever operand byte is taken as the low one. -/
def cpu_abx (x : Nat) : CPU_t := { cpu_of [0x76, 0x01, 0x01] with reg_X := x }

/-- The indirect-indexed add `71 10` at the entry point with `X = 0` and index
`y`; the zero-page pointer at `0x10` holds `0x00FF`. -/
def cpu_izy_page (y : Nat) : CPU_t :=
  cpu_memory_map_write
    (cpu_memory_map_write { cpu_of [0x71, 0x10] with reg_Y := y } 0x0010 0xFF) 0x0011 0x00

/-- The indexed-indirect add `61 10` at the entry point with `X = 2`; the
zero-page pointer at `0x12` holds `0x0234`, and the byte at `0x0234` is `7`. -/
def cpu_izx : CPU_t :=
  cpu_memory_map_write
    (cpu_memory_map_write
      (cpu_memory_map_write { cpu_of [0x61, 0x10] with reg_X := 2 } 0x0012 0x34) 0x0013 0x02)
    0x0234 7

/-- The indirect-indexed add `71 10` at the entry point with index registers `x`
and `Y = 1`; the zero-page pointer at `0x10` holds `0x0300`, the byte at `0x0301`
is `7` and the byte at `0x0012` is `9`. -/
def cpu_izy (x : Nat) : CPU_t :=
  cpu_memory_map_write
    (cpu_memory_map_write
      (cpu_memory_map_write
        (cpu_memory_map_write { cpu_of [0x71, 0x10] with reg_X := x, reg_Y := 1 } 0x0010 0x00)
        0x0011 0x03)
      0x0301 7)
    0x0012 9

/-- The bytes `EA 6D 01 02` at the entry point: an opcode outside the dispatch
table followed by an absolute add. -/
def cpu_nop : CPU_t := cpu_of [0xEA, 0x6D, 0x01, 0x02]

/-- The state `cpu_nop` with the program counter on the absolute add. -/
def cpu_nop_step : CPU_t := { cpu_nop with reg_PC := 0x8001 }

/-! ## Bus: system RAM -/

/-- C1: with `CPU_MEMORY_SIZE = 0x800`, for every state, every address
`a ≤ 0x07FF` and every value `v`, after `cpu_memory_map_write a v` the reads at
`a`, `a + 0x0800`, `a + 0x1000` and `a + 0x1800` all return `v`. -/
theorem ram_mirror_round_trip (PRG_PAGE_SIZE : Nat) (cpu : CPU_t) (a v : Nat)
    (ha : a ≤ 0x07FF) :
    cpu_memory_map_read PRG_PAGE_SIZE (cpu_memory_map_write cpu a v) a = some v ∧
    cpu_memory_map_read PRG_PAGE_SIZE (cpu_memory_map_write cpu a v) (a + 0x0800) = some v ∧
    cpu_memory_map_read PRG_PAGE_SIZE (cpu_memory_map_write cpu a v) (a + 0x1000) = some v ∧
    cpu_memory_map_read PRG_PAGE_SIZE (cpu_memory_map_write cpu a v) (a + 0x1800) = some v := by
  have h0 : a < 0x2000 := by omega
  have h1 : a + 0x0800 < 0x2000 := by omega
  have h2 : a + 0x1000 < 0x2000 := by omega
  have h3 : a + 0x1800 < 0x2000 := by omega
  have e1 : (a + 0x0800) % 0x800 = a % 0x800 := by omega
  have e2 : (a + 0x1000) % 0x800 = a % 0x800 := by omega
  have e3 : (a + 0x1800) % 0x800 = a % 0x800 := by omega
  simp [cpu_memory_map_read, cpu_memory_map_write, CPU_MEMORY_SIZE, h0, h1, h2, h3, e1, e2, e3]

theorem ram_mirror_round_trip_witness :
    (0x07FF : Nat) ≤ 0x07FF ∧
    cpu_memory_map_read 4 (cpu_memory_map_write cpu_demo 0x07FF 0xAB) 0x07FF = some 0xAB ∧
    cpu_memory_map_read 4 (cpu_memory_map_write cpu_demo 0x07FF 0xAB) (0x07FF + 0x0800) = some 0xAB ∧
    cpu_memory_map_read 4 (cpu_memory_map_write cpu_demo 0x07FF 0xAB) (0x07FF + 0x1000) = some 0xAB ∧
    cpu_memory_map_read 4 (cpu_memory_map_write cpu_demo 0x07FF 0xAB) (0x07FF + 0x1800) = some 0xAB :=
  ⟨by decide, ram_mirror_round_trip 4 cpu_demo 0x07FF 0xAB (by decide)⟩

/-! ## Bus: picture-unit registers -/

/-- C2: for every state and every two addresses `a`, `b` in `[0x2000, 0x3FFF]`
with `a % 8 = b % 8`, reading at `a` and at `b` gives the same result, and for
every value `v` writing `v` at `a` and at `b` gives the same state. -/
theorem ppu_mirror_stride_8 (PRG_PAGE_SIZE : Nat) (cpu : CPU_t) (a b : Nat)
    (ha : 0x2000 ≤ a ∧ a ≤ 0x3FFF) (hb : 0x2000 ≤ b ∧ b ≤ 0x3FFF) (hab : a % 8 = b % 8) :
    cpu_memory_map_read PRG_PAGE_SIZE cpu a = cpu_memory_map_read PRG_PAGE_SIZE cpu b ∧
    ∀ v : Nat, cpu_memory_map_write cpu a v = cpu_memory_map_write cpu b v := by
  have ha1 : ¬ a < 0x2000 := by omega
  have ha2 : a ≥ 0x2000 ∧ a < 0x4000 := by omega
  have hb1 : ¬ b < 0x2000 := by omega
  have hb2 : b ≥ 0x2000 ∧ b < 0x4000 := by omega
  refine ⟨?_, fun v => ?_⟩
  · simp only [cpu_memory_map_read, if_neg ha1, if_pos ha2, if_neg hb1, if_pos hb2, hab]
  · simp only [cpu_memory_map_write, if_neg ha1, if_pos ha2, if_neg hb1, if_pos hb2, hab]

theorem ppu_mirror_stride_8_witness :
    ((0x2002 : Nat) % 8 = 0x3FFA % 8) ∧
    cpu_memory_map_read 4 cpu_demo 0x2002 = cpu_memory_map_read 4 cpu_demo 0x3FFA ∧
    ∀ v : Nat, cpu_memory_map_write cpu_demo 0x2002 v = cpu_memory_map_write cpu_demo 0x3FFA v :=
  ⟨by decide, ppu_mirror_stride_8 4 cpu_demo 0x2002 0x3FFA (by decide) (by decide) (by decide)⟩

/-- C6: for every state and value `v`, a write at `a` in `[0x2000, 0x3FFF]`
replaces exactly the picture-unit register selected by `a % 8` (0 PPUCTRL,
1 PPUMASK, 3 OAMADDR, 4 OAMDATA, 5 PPUSCROLL, 6 PPUADDR, 7 PPUDATA) by `v` and
changes nothing when `a % 8 = 2`; a write at `0x4014` replaces exactly OAMDMA by
`v`.  Every other component of the state is as before. -/
theorem ppu_write_forwarded (cpu : CPU_t) (a v : Nat) (ha : 0x2000 ≤ a ∧ a ≤ 0x3FFF) :
    (a % 8 = 0 → cpu_memory_map_write cpu a v =
      { cpu with ppu := { cpu.ppu with reg_PPUCTRL := v } }) ∧
    (a % 8 = 1 → cpu_memory_map_write cpu a v =
      { cpu with ppu := { cpu.ppu with reg_PPUMASK := v } }) ∧
    (a % 8 = 2 → cpu_memory_map_write cpu a v = cpu) ∧
    (a % 8 = 3 → cpu_memory_map_write cpu a v =
      { cpu with ppu := { cpu.ppu with reg_OAMADDR := v } }) ∧
    (a % 8 = 4 → cpu_memory_map_write cpu a v =
      { cpu with ppu := { cpu.ppu with reg_OAMDATA := v } }) ∧
    (a % 8 = 5 → cpu_memory_map_write cpu a v =
      { cpu with ppu := { cpu.ppu with reg_PPUSCROLL := v } }) ∧
    (a % 8 = 6 → cpu_memory_map_write cpu a v =
      { cpu with ppu := { cpu.ppu with reg_PPUADDR := v } }) ∧
    (a % 8 = 7 → cpu_memory_map_write cpu a v =
      { cpu with ppu := { cpu.ppu with reg_PPUDATA := v } }) ∧
    cpu_memory_map_write cpu 0x4014 v =
      { cpu with ppu := { cpu.ppu with reg_OAMDMA := v } } := by
  have ha1 : ¬ a < 0x2000 := by omega
  have ha2 : a ≥ 0x2000 ∧ a < 0x4000 := by omega
  refine ⟨?_, ?_, ?_, ?_, ?_, ?_, ?_, ?_, ?_⟩
  all_goals first
    | (intro h; simp [cpu_memory_map_write, if_neg ha1, if_pos ha2, h])
    | simp [cpu_memory_map_write]

theorem ppu_write_forwarded_witness :
    ((0x2000 : Nat) ≤ 0x3FFE ∧ (0x3FFE : Nat) ≤ 0x3FFF) ∧
    ((0x3FFE : Nat) % 8 = 6 → cpu_memory_map_write cpu_demo 0x3FFE 0x5A =
      { cpu_demo with ppu := { cpu_demo.ppu with reg_PPUADDR := 0x5A } }) ∧
    cpu_memory_map_write cpu_demo 0x4014 0x5A =
      { cpu_demo with ppu := { cpu_demo.ppu with reg_OAMDMA := 0x5A } } :=
  ⟨by decide,
   (ppu_write_forwarded cpu_demo 0x3FFE 0x5A (by decide)).2.2.2.2.2.2.1,
   (ppu_write_forwarded cpu_demo 0x3FFE 0x5A (by decide)).2.2.2.2.2.2.2.2⟩

/-! ## Bus: unmapped regions -/

/-- C5: for every state and every address in `[0x4018, 0x7FFF]` the read returns
`0` and a write of any value leaves the whole state as it was. -/
theorem unmapped_inert (PRG_PAGE_SIZE : Nat) (cpu : CPU_t) (a : Nat)
    (ha : 0x4018 ≤ a ∧ a ≤ 0x7FFF) :
    cpu_memory_map_read PRG_PAGE_SIZE cpu a = some 0 ∧
    ∀ v : Nat, cpu_memory_map_write cpu a v = cpu := by
  have h1 : ¬ a < 0x2000 := by omega
  have h2 : ¬ (a ≥ 0x2000 ∧ a < 0x4000) := by omega
  have h3 : ¬ (a ≥ 0x4000 ∧ a < 0x4017) := by omega
  have h4 : ¬ (a ≥ 0x8000 ∧ a < 0xFFFF) := by omega
  refine ⟨?_, fun v => ?_⟩
  · simp only [cpu_memory_map_read, if_neg h1, if_neg h2, if_neg h3, if_neg h4]
    split_ifs <;> rfl
  · simp only [cpu_memory_map_write, if_neg h1, if_neg h2, if_neg h3]
    split_ifs <;> rfl

theorem unmapped_inert_witness :
    ((0x4018 : Nat) ≤ 0x5FFF ∧ (0x5FFF : Nat) ≤ 0x7FFF) ∧
    cpu_memory_map_read 4 cpu_demo 0x5FFF = some 0 ∧
    ∀ v : Nat, cpu_memory_map_write cpu_demo 0x5FFF v = cpu_demo :=
  ⟨by decide, unmapped_inert 4 cpu_demo 0x5FFF (by decide)⟩

/-! ## Bus: cartridge program storage -/

/-- The index into `prg_data` computed by `cpu_memory_map_read` is the plain sum
as long as that sum fits the 32-bit offset. -/
theorem prg_index_eq (bank size k : Nat) (h : bank * size + k < 2 ^ 32) :
    ((bank * size) % 2 ^ 32 + k) % 2 ^ 32 = bank * size + k := by
  have h1 : bank * size < 2 ^ 32 := by omega
  rw [Nat.mod_eq_of_lt h1, Nat.mod_eq_of_lt h]

/-- The entry after a run of `n` equal entries. -/
theorem lookup_replicate_append_last (n a b : Nat) :
    (List.replicate n a ++ [b])[n]? = some b := by
  rw [List.getElem?_append_right (by simp)]
  simp

/-- Every entry of a run of `n` equal entries. -/
theorem lookup_replicate_lt (n a i : Nat) (h : i < n) :
    (List.replicate n a)[i]? = some a := by
  rw [List.getElem?_replicate]
  simp [h]

/-- Reads in `[0x8000, 0xFFFE]` are looked up in the cartridge image. -/
theorem read_prg (PRG_PAGE_SIZE : Nat) (cpu : CPU_t) (a : Nat)
    (ha : 0x8000 ≤ a ∧ a < 0xFFFF) :
    cpu_memory_map_read PRG_PAGE_SIZE cpu a =
      cpu.cartridge.prg_data[((cpu.cartridge_bank * PRG_PAGE_SIZE) % 2 ^ 32
        + (a - 0x8000)) % 2 ^ 32]? := by
  have h1 : ¬ a < 0x2000 := by omega
  have h2 : ¬ (a ≥ 0x2000 ∧ a < 0x4000) := by omega
  have h3 : ¬ (a ≥ 0x4000 ∧ a < 0x4017) := by omega
  have h4 : ¬ (a ≥ 0x4018 ∧ a < 0x401F) := by omega
  have h5 : ¬ (a ≥ 0x4020 ∧ a < 0x5FFF) := by omega
  have h6 : ¬ (a ≥ 0x6000 ∧ a < 0x7FFF) := by omega
  have h7 : a ≥ 0x8000 ∧ a < 0xFFFF := by omega
  simp only [cpu_memory_map_read, if_neg h1, if_neg h2, if_neg h3, if_neg h4, if_neg h5,
    if_neg h6, if_pos h7]

/-- C3: for every bank index `b` and every offset `k < PRG_PAGE_SIZE` with
`0x8000 + k` inside the window the bus maps to program storage (and the offset
`b * PRG_PAGE_SIZE + k` representable in the 32-bit offset the code computes),
when `cartridge_bank = b` the read at `0x8000 + k` is the lookup of
`prg_data[b * PRG_PAGE_SIZE + k]`: it returns that byte whenever the image has
one there. -/
theorem prg_bank_switching (PRG_PAGE_SIZE : Nat) (cpu : CPU_t) (b k : Nat)
    (hb : cpu.cartridge_bank = b) (hk : k < PRG_PAGE_SIZE) (hwin : 0x8000 + k < 0xFFFF)
    (hfit : b * PRG_PAGE_SIZE + k < 2 ^ 32) :
    cpu_memory_map_read PRG_PAGE_SIZE cpu (0x8000 + k) =
      cpu.cartridge.prg_data[b * PRG_PAGE_SIZE + k]? ∧
    ∀ h : b * PRG_PAGE_SIZE + k < cpu.cartridge.prg_data.length,
      cpu_memory_map_read PRG_PAGE_SIZE cpu (0x8000 + k) =
        some (cpu.cartridge.prg_data.get ⟨b * PRG_PAGE_SIZE + k, h⟩) := by
  have hr : cpu_memory_map_read PRG_PAGE_SIZE cpu (0x8000 + k) =
      cpu.cartridge.prg_data[b * PRG_PAGE_SIZE + k]? := by
    rw [read_prg PRG_PAGE_SIZE cpu (0x8000 + k) (by omega), hb]
    have e : 0x8000 + k - 0x8000 = k := by omega
    rw [e, prg_index_eq b PRG_PAGE_SIZE k hfit]
  refine ⟨hr, fun h => ?_⟩
  rw [hr, List.getElem?_eq_getElem h]
  rfl

theorem prg_bank_switching_witness :
    (1 : Nat) = 1 ∧ (0 : Nat) < 4 ∧
    cpu_memory_map_read 4 { cpu_demo with cartridge_bank := 1 } (0x8000 + 0) = some 0x10 ∧
    ({ cpu_demo with cartridge_bank := 1 } : CPU_t).cartridge.prg_data[0 * 4 + 0]? = some 0x69 :=
  ⟨rfl, by decide,
   (prg_bank_switching 4 { cpu_demo with cartridge_bank := 1 } 1 0 rfl (by decide) (by decide)
      (by decide)).2 (by decide),
   rfl⟩

/-- C4, the last address of the window: with bank 0 and the image `rom_top`,
whose byte at offset `0 * 0x4000 + (0xFFFF - 0x8000)` is `0xEA`, the read at
`0xFFFF` returns `0`, while the read at `0xFFFE` does return the image byte at
its offset. -/
theorem read_0xFFFF_not_prg :
    (cpu_init ppu_demo apu_demo rom_top).cartridge.prg_data[
      (cpu_init ppu_demo apu_demo rom_top).cartridge_bank * 0x4000 + (0xFFFF - 0x8000)]?
      = some 0xEA ∧
    cpu_memory_map_read 0x4000 (cpu_init ppu_demo apu_demo rom_top) 0xFFFF = some 0 ∧
    cpu_memory_map_read 0x4000 (cpu_init ppu_demo apu_demo rom_top) 0xFFFE =
      (cpu_init ppu_demo apu_demo rom_top).cartridge.prg_data[
        (cpu_init ppu_demo apu_demo rom_top).cartridge_bank * 0x4000 + (0xFFFE - 0x8000)]? := by
  refine ⟨?_, ?_, ?_⟩
  · exact lookup_replicate_append_last 0x7FFF 0 0xEA
  · simp [cpu_memory_map_read]
  · rw [read_prg 0x4000 _ 0xFFFE (by decide)]
    rfl

/-! ## Power-on -/

/-- C7: the state produced by `cpu_init` has accumulator, index X and index Y
equal to `0`, stack pointer `0xFD`, status `0x34` (whose bit 2, the
interrupt-disable flag, is set), every cell of system RAM equal to `0`, so that
the read at every address below `0x2000` returns `0`, and bank selector `0`. -/
theorem cpu_init_power_on (PRG_PAGE_SIZE : Nat) (ppu0 : PPU_t) (apu0 : APU_t)
    (cartridge : ROM_t) :
    (cpu_init ppu0 apu0 cartridge).reg_A = 0 ∧
    (cpu_init ppu0 apu0 cartridge).reg_X = 0 ∧
    (cpu_init ppu0 apu0 cartridge).reg_Y = 0 ∧
    (cpu_init ppu0 apu0 cartridge).reg_S = 0xFD ∧
    (cpu_init ppu0 apu0 cartridge).reg_P = 0x34 ∧
    (cpu_init ppu0 apu0 cartridge).reg_P / 4 % 2 = 1 ∧
    (∀ i : Nat, (cpu_init ppu0 apu0 cartridge).memory i = 0) ∧
    (∀ a : Nat, a < 0x2000 →
      cpu_memory_map_read PRG_PAGE_SIZE (cpu_init ppu0 apu0 cartridge) a = some 0) ∧
    (cpu_init ppu0 apu0 cartridge).cartridge_bank = 0 := by
  refine ⟨rfl, rfl, rfl, rfl, rfl, by simp [cpu_init], fun _ => rfl, fun a ha => ?_, rfl⟩
  simp [cpu_memory_map_read, ha, cpu_init]

theorem cpu_init_power_on_witness :
    (0x1FFF : Nat) < 0x2000 ∧ cpu_memory_map_read 4 cpu_demo 0x1FFF = some 0 :=
  ⟨by decide, (cpu_init_power_on 4 ppu_demo apu_demo rom_demo).2.2.2.2.2.2.2.1 0x1FFF (by decide)⟩

/-- C8, as stated, fails: with the image `rom_zero` (32 KiB of zeros, page size
`0x4000`) the bytes read through the bus at `0xFFFC` and `0xFFFD` are both `0`,
so the reset vector holds `0x0000`, yet the program counter after `cpu_init` is
`0x8000`. -/
theorem reset_vector_not_loaded :
    cpu_memory_map_read 0x4000 (cpu_init ppu_demo apu_demo rom_zero) 0xFFFC = some 0 ∧
    cpu_memory_map_read 0x4000 (cpu_init ppu_demo apu_demo rom_zero) 0xFFFD = some 0 ∧
    ¬ ∃ lo hi : Nat,
      cpu_memory_map_read 0x4000 (cpu_init ppu_demo apu_demo rom_zero) 0xFFFC = some lo ∧
      cpu_memory_map_read 0x4000 (cpu_init ppu_demo apu_demo rom_zero) 0xFFFD = some hi ∧
      (cpu_init ppu_demo apu_demo rom_zero).reg_PC = lo + 256 * hi := by
  have h1 : cpu_memory_map_read 0x4000 (cpu_init ppu_demo apu_demo rom_zero) 0xFFFC = some 0 := by
    rw [read_prg 0x4000 _ 0xFFFC (by decide)]
    exact lookup_replicate_lt 0x8000 0 0x7FFC (by decide)
  have h2 : cpu_memory_map_read 0x4000 (cpu_init ppu_demo apu_demo rom_zero) 0xFFFD = some 0 := by
    rw [read_prg 0x4000 _ 0xFFFD (by decide)]
    exact lookup_replicate_lt 0x8000 0 0x7FFD (by decide)
  refine ⟨h1, h2, ?_⟩
  rintro ⟨lo, hi, hlo, hhi, hpc⟩
  rw [h1] at hlo
  rw [h2] at hhi
  cases hlo
  cases hhi
  simp [cpu_init] at hpc

/-- C8, amended: for every cartridge image the program counter after `cpu_init`
is the fixed entry point `0x8000`, the first address of the program-storage
window. -/
theorem cpu_init_entry_point (ppu0 : PPU_t) (apu0 : APU_t) (cartridge : ROM_t) :
    (cpu_init ppu0 apu0 cartridge).reg_PC = 0x8000 :=
  rfl

/-! ## Frame of a step: lemmas -/

theorem SameButAPC.refl (s : CPU_t) : SameButAPC s s :=
  ⟨rfl, rfl, rfl, rfl, rfl, rfl, rfl, rfl, rfl⟩

theorem SameButAPC.trans {s s1 s2 : CPU_t} (h1 : SameButAPC s s1) (h2 : SameButAPC s1 s2) :
    SameButAPC s s2 := by
  obtain ⟨a1, a2, a3, a4, a5, a6, a7, a8, a9⟩ := h1
  obtain ⟨b1, b2, b3, b4, b5, b6, b7, b8, b9⟩ := h2
  exact ⟨b1.trans a1, b2.trans a2, b3.trans a3, b4.trans a4, b5.trans a5, b6.trans a6,
    b7.trans a7, b8.trans a8, b9.trans a9⟩

theorem fetch_eq {PRG_PAGE_SIZE : Nat} {s s1 : CPU_t} {b : Nat}
    (h : fetch PRG_PAGE_SIZE s = some (b, s1)) :
    cpu_memory_map_read PRG_PAGE_SIZE s s.reg_PC = some b ∧
    s1 = { s with reg_PC := (s.reg_PC + 1) % 65536 } := by
  unfold fetch at h
  split at h
  · cases h
  · rename_i b0 hb
    simp only [Option.some.injEq, Prod.mk.injEq] at h
    obtain ⟨h1, h2⟩ := h
    subst h1
    exact ⟨hb, h2.symm⟩

theorem fetch_frame {PRG_PAGE_SIZE : Nat} {s s1 : CPU_t} {b : Nat}
    (h : fetch PRG_PAGE_SIZE s = some (b, s1)) : SameButAPC s s1 := by
  rw [(fetch_eq h).2]
  exact SameButAPC.refl s

theorem add_A_frame (s : CPU_t) (m : Nat) : SameButAPC s (add_A s m) :=
  SameButAPC.refl s

theorem cpu_cycle_frame {PRG_PAGE_SIZE : Nat} {s s1 : CPU_t} {n : Nat}
    (h : cpu_cycle PRG_PAGE_SIZE s = some (n, s1)) : SameButAPC s s1 := by
  unfold cpu_cycle at h
  split at h
  · cases h
  · rename_i opcode c0 hf0
    have f0 := fetch_frame hf0
    split_ifs at h
    all_goals
      repeat' split at h
    all_goals try (dsimp only at h; split at h)
    all_goals cases h
    all_goals first
      | exact f0
      | exact f0.trans ((fetch_frame (by assumption)).trans (add_A_frame _ _))
      | exact f0.trans ((fetch_frame (by assumption)).trans
          ((fetch_frame (by assumption)).trans (add_A_frame _ _)))

theorem cpu_memory_map_write_reg_P (s : CPU_t) (a v : Nat) :
    (cpu_memory_map_write s a v).reg_P = s.reg_P := by
  unfold cpu_memory_map_write
  split_ifs <;> rfl

/-- The first step of `cpu_demo`. -/
theorem cpu_cycle_cpu_demo : cpu_cycle 4 cpu_demo = some (2, cpu_demo_step) := by
  rfl

/-! ## Status register -/

/-- C9: bit 5 (`0x20`) of the status register is set in the state produced by
`cpu_init`, is still set after every step of `cpu_cycle` and after every
`cpu_memory_map_write` from a state in which it is set, and therefore is set in
every state reachable from `cpu_init` by these operations. -/
theorem reserved_bit_invariant (PRG_PAGE_SIZE : Nat) (ppu0 : PPU_t) (apu0 : APU_t)
    (cartridge : ROM_t) :
    (cpu_init ppu0 apu0 cartridge).reg_P &&& 0x20 = 0x20 ∧
    (∀ (s s1 : CPU_t) (n : Nat), s.reg_P &&& 0x20 = 0x20 →
      cpu_cycle PRG_PAGE_SIZE s = some (n, s1) → s1.reg_P &&& 0x20 = 0x20) ∧
    (∀ (s : CPU_t) (a v : Nat), s.reg_P &&& 0x20 = 0x20 →
      (cpu_memory_map_write s a v).reg_P &&& 0x20 = 0x20) ∧
    (∀ s : CPU_t, Reachable PRG_PAGE_SIZE ppu0 apu0 cartridge s → s.reg_P &&& 0x20 = 0x20) := by
  have hinit : (cpu_init ppu0 apu0 cartridge).reg_P &&& 0x20 = 0x20 := by
    show 0x34 &&& 0x20 = 0x20
    decide
  have hcycle : ∀ (s s1 : CPU_t) (n : Nat), s.reg_P &&& 0x20 = 0x20 →
      cpu_cycle PRG_PAGE_SIZE s = some (n, s1) → s1.reg_P &&& 0x20 = 0x20 := by
    intro s s1 n hs h
    rw [(cpu_cycle_frame h).2.2.2.1]
    exact hs
  have hwrite : ∀ (s : CPU_t) (a v : Nat), s.reg_P &&& 0x20 = 0x20 →
      (cpu_memory_map_write s a v).reg_P &&& 0x20 = 0x20 := by
    intro s a v hs
    rw [cpu_memory_map_write_reg_P]
    exact hs
  refine ⟨hinit, hcycle, hwrite, ?_⟩
  intro s hr
  induction hr with
  | init => exact hinit
  | cycle _ hstep ih => exact hcycle _ _ _ ih hstep
  | write a v _ ih => exact hwrite _ a v ih

theorem reserved_bit_invariant_witness :
    Reachable 4 ppu_demo apu_demo rom_demo (cpu_memory_map_write cpu_demo_step 0x0001 0xFF) ∧
    (cpu_memory_map_write cpu_demo_step 0x0001 0xFF).reg_P &&& 0x20 = 0x20 :=
  ⟨Reachable.write 0x0001 0xFF (Reachable.cycle Reachable.init cpu_cycle_cpu_demo),
   (reserved_bit_invariant 4 ppu_demo apu_demo rom_demo).2.2.2 _
     (Reachable.write 0x0001 0xFF (Reachable.cycle Reachable.init cpu_cycle_cpu_demo))⟩

/-! ## Zero-page indexed addressing -/

/-- C10, the example of the claim: `cpu_zpx` holds `7` at `0x0001` and `9` at
`0x0101`, its accumulator is `0`, `X = 2`, and the instruction at its program
counter is opcode `0x75` with operand `0xFF`.  The step adds the byte at
`0x0101`: the accumulator becomes `9`, not `7`. -/
theorem zero_page_x_no_wrap :
    cpu_memory_map_read 0x4000 cpu_zpx cpu_zpx.reg_PC = some 0x75 ∧
    cpu_memory_map_read 0x4000 cpu_zpx (cpu_zpx.reg_PC + 1) = some 0xFF ∧
    cpu_zpx.reg_X = 2 ∧ cpu_zpx.reg_A = 0 ∧
    cpu_memory_map_read 0x4000 cpu_zpx 0x0001 = some 7 ∧
    cpu_memory_map_read 0x4000 cpu_zpx 0x0101 = some 9 ∧
    cpu_cycle 0x4000 cpu_zpx = some (4, { cpu_zpx with reg_A := 9, reg_PC := 0x8002 }) := by
  refine ⟨rfl, rfl, rfl, rfl, rfl, rfl, rfl⟩

/-! ## The step, opcode by opcode -/

/-- The bus read does not look at the accumulator or the program counter. -/
theorem read_congr {PRG_PAGE_SIZE : Nat} {s s1 : CPU_t} (h : SameButAPC s s1) (a : Nat) :
    cpu_memory_map_read PRG_PAGE_SIZE s1 a = cpu_memory_map_read PRG_PAGE_SIZE s a := by
  obtain ⟨h1, _, _, _, _, h6, _, h8, h9⟩ := h
  simp only [cpu_memory_map_read, h1, h6, h8, h9]

theorem read_set_PC (PRG_PAGE_SIZE : Nat) (s : CPU_t) (pc a : Nat) :
    cpu_memory_map_read PRG_PAGE_SIZE { s with reg_PC := pc } a =
      cpu_memory_map_read PRG_PAGE_SIZE s a :=
  rfl

theorem fetch_of_read {PRG_PAGE_SIZE : Nat} {s : CPU_t} {b : Nat}
    (h : cpu_memory_map_read PRG_PAGE_SIZE s s.reg_PC = some b) :
    fetch PRG_PAGE_SIZE s = some (b, { s with reg_PC := (s.reg_PC + 1) % 65536 }) := by
  simp only [fetch, h]

theorem pc_succ_succ (pc : Nat) : ((pc + 1) % 65536 + 1) % 65536 = (pc + 1 + 1) % 65536 := by
  omega

theorem pc_succ_succ_succ (pc : Nat) :
    ((pc + 1 + 1) % 65536 + 1) % 65536 = (pc + 1 + 2) % 65536 := by
  omega

/-- Opcode `0x69`: the operand is the next byte. -/
theorem cpu_cycle_imm {PRG_PAGE_SIZE : Nat} {s : CPU_t} {b1 : Nat}
    (h0 : cpu_memory_map_read PRG_PAGE_SIZE s s.reg_PC = some 0x69)
    (h1 : cpu_memory_map_read PRG_PAGE_SIZE s ((s.reg_PC + 1) % 65536) = some b1) :
    cpu_cycle PRG_PAGE_SIZE s =
      some (2, { s with reg_PC := (s.reg_PC + 1 + 1) % 65536, reg_A := (s.reg_A + b1) % 256 }) := by
  have f0 := fetch_of_read h0
  have f1 := fetch_of_read (s := { s with reg_PC := (s.reg_PC + 1) % 65536 }) h1
  simp only [cpu_cycle, f0, f1, add_A, pc_succ_succ]
  simp

/-- Opcode `0x65`: the operand is read at the address given by the next byte. -/
theorem cpu_cycle_zp {PRG_PAGE_SIZE : Nat} {s : CPU_t} {b1 m : Nat}
    (h0 : cpu_memory_map_read PRG_PAGE_SIZE s s.reg_PC = some 0x65)
    (h1 : cpu_memory_map_read PRG_PAGE_SIZE s ((s.reg_PC + 1) % 65536) = some b1)
    (h2 : cpu_memory_map_read PRG_PAGE_SIZE s b1 = some m) :
    cpu_cycle PRG_PAGE_SIZE s =
      some (3, { s with reg_PC := (s.reg_PC + 1 + 1) % 65536, reg_A := (s.reg_A + m) % 256 }) := by
  have f0 := fetch_of_read h0
  have f1 := fetch_of_read (s := { s with reg_PC := (s.reg_PC + 1) % 65536 }) h1
  simp only [cpu_cycle, f0, f1, add_A, pc_succ_succ]
  simp [read_set_PC, h2]

/-- Opcodes `0x75`, `0x61` and `0x71`: the operand is read at the address given
by the next byte plus `X`, as a 16-bit sum. -/
theorem cpu_cycle_zpx {PRG_PAGE_SIZE : Nat} {s : CPU_t} {d m : Nat}
    (h1 : cpu_memory_map_read PRG_PAGE_SIZE s ((s.reg_PC + 1) % 65536) = some d)
    (h2 : cpu_memory_map_read PRG_PAGE_SIZE s ((d + s.reg_X) % 65536) = some m) :
    (cpu_memory_map_read PRG_PAGE_SIZE s s.reg_PC = some 0x75 →
      cpu_cycle PRG_PAGE_SIZE s =
        some (4, { s with reg_PC := (s.reg_PC + 1 + 1) % 65536, reg_A := (s.reg_A + m) % 256 })) ∧
    (cpu_memory_map_read PRG_PAGE_SIZE s s.reg_PC = some 0x61 →
      cpu_cycle PRG_PAGE_SIZE s =
        some (6, { s with reg_PC := (s.reg_PC + 1 + 1) % 65536, reg_A := (s.reg_A + m) % 256 })) ∧
    (cpu_memory_map_read PRG_PAGE_SIZE s s.reg_PC = some 0x71 →
      cpu_cycle PRG_PAGE_SIZE s =
        some (5, { s with reg_PC := (s.reg_PC + 1 + 1) % 65536, reg_A := (s.reg_A + m) % 256 })) := by
  have f1 := fetch_of_read (s := { s with reg_PC := (s.reg_PC + 1) % 65536 }) h1
  refine ⟨fun h0 => ?_, fun h0 => ?_, fun h0 => ?_⟩
  all_goals
    have f0 := fetch_of_read h0
    simp only [cpu_cycle, f0, f1, add_A, pc_succ_succ]
    simp [read_set_PC, h2]

/-- Opcode `0x6D`: the operand is read at the 16-bit address whose high byte is
the first operand byte and whose low byte is the second.  Opcodes `0x76` and
`0x79`: the same address plus `X`, respectively `Y`, as a 16-bit sum. -/
theorem cpu_cycle_abs {PRG_PAGE_SIZE : Nat} {s : CPU_t} {p q : Nat}
    (h1 : cpu_memory_map_read PRG_PAGE_SIZE s ((s.reg_PC + 1) % 65536) = some p)
    (h2 : cpu_memory_map_read PRG_PAGE_SIZE s ((s.reg_PC + 1 + 1) % 65536) = some q) :
    (∀ m, cpu_memory_map_read PRG_PAGE_SIZE s s.reg_PC = some 0x6D →
      cpu_memory_map_read PRG_PAGE_SIZE s (((p <<< 8) ||| q) % 65536) = some m →
      cpu_cycle PRG_PAGE_SIZE s =
        some (4, { s with reg_PC := (s.reg_PC + 1 + 2) % 65536, reg_A := (s.reg_A + m) % 256 })) ∧
    (∀ m, cpu_memory_map_read PRG_PAGE_SIZE s s.reg_PC = some 0x76 →
      cpu_memory_map_read PRG_PAGE_SIZE s
        ((((p <<< 8) ||| q) % 65536 + s.reg_X) % 65536) = some m →
      cpu_cycle PRG_PAGE_SIZE s =
        some (4, { s with reg_PC := (s.reg_PC + 1 + 2) % 65536, reg_A := (s.reg_A + m) % 256 })) ∧
    (∀ m, cpu_memory_map_read PRG_PAGE_SIZE s s.reg_PC = some 0x79 →
      cpu_memory_map_read PRG_PAGE_SIZE s
        ((((p <<< 8) ||| q) % 65536 + s.reg_Y) % 65536) = some m →
      cpu_cycle PRG_PAGE_SIZE s =
        some (4, { s with reg_PC := (s.reg_PC + 1 + 2) % 65536, reg_A := (s.reg_A + m) % 256 })) := by
  have f1 := fetch_of_read (s := { s with reg_PC := (s.reg_PC + 1) % 65536 }) h1
  have f2 := fetch_of_read (s := { s with reg_PC := (s.reg_PC + 1 + 1) % 65536 }) h2
  refine ⟨fun m h0 h3 => ?_, fun m h0 h3 => ?_, fun m h0 h3 => ?_⟩
  all_goals
    have f0 := fetch_of_read h0
    simp only [cpu_cycle, f0, f1, add_A, pc_succ_succ, f2, pc_succ_succ_succ]
    simp [-Nat.mod_add_mod, read_set_PC, h3]

/-- Any other opcode: only the program counter moves, by one. -/
theorem cpu_cycle_other {PRG_PAGE_SIZE : Nat} {s : CPU_t} {op : Nat}
    (h0 : cpu_memory_map_read PRG_PAGE_SIZE s s.reg_PC = some op)
    (hop : op ∉ dispatch_table) :
    cpu_cycle PRG_PAGE_SIZE s = some (2, { s with reg_PC := (s.reg_PC + 1) % 65536 }) := by
  have f0 := fetch_of_read h0
  simp only [dispatch_table, List.mem_cons, List.mem_singleton, not_or, List.mem_nil_iff,
    or_false] at hop
  obtain ⟨n1, n2, n3, n4, n5, n6, n7, n8⟩ := hop
  simp only [cpu_cycle, f0, if_neg n1, if_neg n2, if_neg n3, if_neg n4, if_neg n5, if_neg n6,
    if_neg n7, if_neg n8]

/-! ## Reads that are defined -/

theorem rom_of_length (prog : List Nat) (h : prog.length ≤ 0x8000) :
    (rom_of prog).prg_data.length = 0x8000 := by
  simp only [rom_of, List.length_append, List.length_replicate]
  omega

/-- Reading the program of `rom_of prog` through the bus, bank 0. -/
theorem read_rom_of (PRG_PAGE_SIZE : Nat) (s : CPU_t) (prog : List Nat) (i : Nat)
    (hc : s.cartridge = rom_of prog) (hb : s.cartridge_bank = 0) (hi : i < prog.length)
    (hlen : prog.length ≤ 0x7FFF) :
    cpu_memory_map_read PRG_PAGE_SIZE s (0x8000 + i) = prog[i]? := by
  rw [read_prg PRG_PAGE_SIZE s (0x8000 + i) (by omega), hc, hb]
  have e : (0 * PRG_PAGE_SIZE % 2 ^ 32 + (0x8000 + i - 0x8000)) % 2 ^ 32 = i := by
    simp only [Nat.zero_mul, Nat.zero_mod, Nat.zero_add, Nat.add_sub_cancel_left]
    exact Nat.mod_eq_of_lt (by omega)
  rw [e]
  exact List.getElem?_append_left hi

theorem prg_index_le (bank size k : Nat) :
    ((bank * size) % 2 ^ 32 + k) % 2 ^ 32 ≤ bank * size + k :=
  le_trans (Nat.mod_le _ _) (Nat.add_le_add_right (Nat.mod_le _ _) _)

/-- With the window covered, every bus read returns a byte. -/
theorem read_defined {PRG_PAGE_SIZE : Nat} {s : CPU_t} (hc : WindowCovered PRG_PAGE_SIZE s)
    (a : Nat) : ∃ v, cpu_memory_map_read PRG_PAGE_SIZE s a = some v := by
  unfold cpu_memory_map_read
  split_ifs with h1 h2 h3 h4 h5 h6 h7 h8 h9 h10
  all_goals first
    | exact ⟨_, rfl⟩
    | skip
  have hlt : ((s.cartridge_bank * PRG_PAGE_SIZE) % 2 ^ 32 + (a - 0x8000)) % 2 ^ 32
      < s.cartridge.prg_data.length := by
    have := prg_index_le s.cartridge_bank PRG_PAGE_SIZE (a - 0x8000)
    unfold WindowCovered at hc
    omega
  exact ⟨_, List.getElem?_eq_getElem hlt⟩

theorem windowCovered_of_cartridge {PRG_PAGE_SIZE : Nat} {s : CPU_t} (prog : List Nat)
    (hc : s.cartridge = rom_of prog) (hb : s.cartridge_bank = 0) (hlen : prog.length ≤ 0x8000) :
    WindowCovered PRG_PAGE_SIZE s := by
  unfold WindowCovered
  rw [hc, hb, rom_of_length prog hlen]
  omega

/-- With the window covered, the step returns, and what it returns is fixed by
the opcode and the bytes the bus gives at the two addresses after it. -/
theorem cpu_cycle_cases {PRG_PAGE_SIZE : Nat} {s : CPU_t} {op : Nat}
    (hc : WindowCovered PRG_PAGE_SIZE s)
    (hop : cpu_memory_map_read PRG_PAGE_SIZE s s.reg_PC = some op) :
    ∃ b1 b2 : Nat,
      cpu_memory_map_read PRG_PAGE_SIZE s ((s.reg_PC + 1) % 65536) = some b1 ∧
      cpu_memory_map_read PRG_PAGE_SIZE s ((s.reg_PC + 1 + 1) % 65536) = some b2 ∧
      (op = 0x69 → cpu_cycle PRG_PAGE_SIZE s =
        some (2, { s with reg_PC := (s.reg_PC + 1 + 1) % 65536,
                          reg_A := (s.reg_A + b1) % 256 })) ∧
      (op = 0x65 → ∃ m, cpu_memory_map_read PRG_PAGE_SIZE s b1 = some m ∧
        cpu_cycle PRG_PAGE_SIZE s =
          some (3, { s with reg_PC := (s.reg_PC + 1 + 1) % 65536,
                            reg_A := (s.reg_A + m) % 256 })) ∧
      (∃ m, cpu_memory_map_read PRG_PAGE_SIZE s ((b1 + s.reg_X) % 65536) = some m ∧
        (op = 0x75 → cpu_cycle PRG_PAGE_SIZE s =
          some (4, { s with reg_PC := (s.reg_PC + 1 + 1) % 65536,
                            reg_A := (s.reg_A + m) % 256 })) ∧
        (op = 0x61 → cpu_cycle PRG_PAGE_SIZE s =
          some (6, { s with reg_PC := (s.reg_PC + 1 + 1) % 65536,
                            reg_A := (s.reg_A + m) % 256 })) ∧
        (op = 0x71 → cpu_cycle PRG_PAGE_SIZE s =
          some (5, { s with reg_PC := (s.reg_PC + 1 + 1) % 65536,
                            reg_A := (s.reg_A + m) % 256 }))) ∧
      (op = 0x6D → ∃ m,
        cpu_memory_map_read PRG_PAGE_SIZE s (((b1 <<< 8) ||| b2) % 65536) = some m ∧
        cpu_cycle PRG_PAGE_SIZE s =
          some (4, { s with reg_PC := (s.reg_PC + 1 + 2) % 65536,
                            reg_A := (s.reg_A + m) % 256 })) ∧
      (op = 0x76 → ∃ m,
        cpu_memory_map_read PRG_PAGE_SIZE s
          ((((b1 <<< 8) ||| b2) % 65536 + s.reg_X) % 65536) = some m ∧
        cpu_cycle PRG_PAGE_SIZE s =
          some (4, { s with reg_PC := (s.reg_PC + 1 + 2) % 65536,
                            reg_A := (s.reg_A + m) % 256 })) ∧
      (op = 0x79 → ∃ m,
        cpu_memory_map_read PRG_PAGE_SIZE s
          ((((b1 <<< 8) ||| b2) % 65536 + s.reg_Y) % 65536) = some m ∧
        cpu_cycle PRG_PAGE_SIZE s =
          some (4, { s with reg_PC := (s.reg_PC + 1 + 2) % 65536,
                            reg_A := (s.reg_A + m) % 256 })) ∧
      (op ∉ dispatch_table → cpu_cycle PRG_PAGE_SIZE s =
        some (2, { s with reg_PC := (s.reg_PC + 1) % 65536 })) := by
  obtain ⟨b1, h1⟩ := read_defined hc ((s.reg_PC + 1) % 65536)
  obtain ⟨b2, h2⟩ := read_defined hc ((s.reg_PC + 1 + 1) % 65536)
  obtain ⟨mx, hmx⟩ := read_defined hc ((b1 + s.reg_X) % 65536)
  refine ⟨b1, b2, h1, h2, ?_, ?_, ⟨mx, hmx, ?_, ?_, ?_⟩, ?_, ?_, ?_, ?_⟩
  · intro e
    subst e
    exact cpu_cycle_imm hop h1
  · intro e
    subst e
    obtain ⟨m, hm⟩ := read_defined hc b1
    exact ⟨m, hm, cpu_cycle_zp hop h1 hm⟩
  · intro e
    subst e
    exact (cpu_cycle_zpx h1 hmx).1 hop
  · intro e
    subst e
    exact (cpu_cycle_zpx h1 hmx).2.1 hop
  · intro e
    subst e
    exact (cpu_cycle_zpx h1 hmx).2.2 hop
  · intro e
    subst e
    obtain ⟨m, hm⟩ := read_defined hc (((b1 <<< 8) ||| b2) % 65536)
    exact ⟨m, hm, (cpu_cycle_abs h1 h2).1 m hop hm⟩
  · intro e
    subst e
    obtain ⟨m, hm⟩ := read_defined hc ((((b1 <<< 8) ||| b2) % 65536 + s.reg_X) % 65536)
    exact ⟨m, hm, (cpu_cycle_abs h1 h2).2.1 m hop hm⟩
  · intro e
    subst e
    obtain ⟨m, hm⟩ := read_defined hc ((((b1 <<< 8) ||| b2) % 65536 + s.reg_Y) % 65536)
    exact ⟨m, hm, (cpu_cycle_abs h1 h2).2.2 m hop hm⟩
  · intro hno
    exact cpu_cycle_other hop hno

/-- A step on an opcode of the dispatch table adds some byte to the
accumulator. -/
theorem cpu_cycle_adds {PRG_PAGE_SIZE : Nat} {s : CPU_t} {op : Nat}
    (hc : WindowCovered PRG_PAGE_SIZE s)
    (hop : cpu_memory_map_read PRG_PAGE_SIZE s s.reg_PC = some op)
    (hmem : op ∈ dispatch_table) :
    ∃ cyc pc m, cpu_cycle PRG_PAGE_SIZE s =
      some (cyc, { s with reg_PC := pc, reg_A := (s.reg_A + m) % 256 }) := by
  obtain ⟨b1, b2, _, _, c1, c2, ⟨mx, _, c3, c4, c5⟩, c6, c7, c8, _⟩ := cpu_cycle_cases hc hop
  simp only [dispatch_table, List.mem_cons, List.mem_singleton, List.mem_nil_iff,
    or_false] at hmem
  rcases hmem with e | e | e | e | e | e | e | e
  · exact ⟨_, _, _, c1 e⟩
  · obtain ⟨m, _, h⟩ := c2 e
    exact ⟨_, _, _, h⟩
  · exact ⟨_, _, _, c3 e⟩
  · obtain ⟨m, _, h⟩ := c6 e
    exact ⟨_, _, _, h⟩
  · obtain ⟨m, _, h⟩ := c7 e
    exact ⟨_, _, _, h⟩
  · obtain ⟨m, _, h⟩ := c8 e
    exact ⟨_, _, _, h⟩
  · exact ⟨_, _, _, c4 e⟩
  · exact ⟨_, _, _, c5 e⟩

/-- With the window covered, `cpu_cycle` returns. -/
theorem cpu_cycle_returns {PRG_PAGE_SIZE : Nat} {s : CPU_t}
    (hc : WindowCovered PRG_PAGE_SIZE s) :
    ∃ cyc s1, cpu_cycle PRG_PAGE_SIZE s = some (cyc, s1) := by
  obtain ⟨op, hop⟩ := read_defined hc s.reg_PC
  by_cases hmem : op ∈ dispatch_table
  · obtain ⟨cyc, pc, m, h⟩ := cpu_cycle_adds hc hop hmem
    exact ⟨_, _, h⟩
  · exact ⟨_, _, cpu_cycle_other hop hmem⟩

/-- The cycle counts `cpu_cycle` can return. -/
theorem cpu_cycle_count {PRG_PAGE_SIZE : Nat} {s s1 : CPU_t} {n : Nat}
    (h : cpu_cycle PRG_PAGE_SIZE s = some (n, s1)) : n ∈ [2, 3, 4, 5, 6] := by
  unfold cpu_cycle at h
  split at h
  · cases h
  · split_ifs at h
    all_goals
      repeat' split at h
    all_goals try (dsimp only at h; split at h)
    all_goals cases h
    all_goals decide

/-! ## Absolute addressing -/

/-- C11, on the absolute add `6D 01 02`: the operand bytes in instruction order
are `b1 = 0x01` and `b2 = 0x02`, the byte at `b1 + 256 * b2 = 0x0201` is `7` and
the byte at `256 * b1 + b2 = 0x0102` is `9`.  The step adds `9`: the first
operand byte is taken as the high byte of the address. -/
theorem absolute_high_byte_first :
    cpu_memory_map_read 0x4000 cpu_abs cpu_abs.reg_PC = some 0x6D ∧
    cpu_memory_map_read 0x4000 cpu_abs (cpu_abs.reg_PC + 1) = some 0x01 ∧
    cpu_memory_map_read 0x4000 cpu_abs (cpu_abs.reg_PC + 2) = some 0x02 ∧
    cpu_abs.reg_A = 0 ∧
    cpu_memory_map_read 0x4000 cpu_abs (0x01 + 256 * 0x02) = some 7 ∧
    cpu_memory_map_read 0x4000 cpu_abs (256 * 0x01 + 0x02) = some 9 ∧
    cpu_cycle 0x4000 cpu_abs = some (4, { cpu_abs with reg_A := 9, reg_PC := 0x8003 }) := by
  have h0 : cpu_memory_map_read 0x4000 cpu_abs cpu_abs.reg_PC = some 0x6D :=
    read_rom_of 0x4000 cpu_abs _ 0 rfl rfl (by decide) (by decide)
  have h1 : cpu_memory_map_read 0x4000 cpu_abs (cpu_abs.reg_PC + 1) = some 0x01 :=
    read_rom_of 0x4000 cpu_abs _ 1 rfl rfl (by decide) (by decide)
  have h2 : cpu_memory_map_read 0x4000 cpu_abs (cpu_abs.reg_PC + 2) = some 0x02 :=
    read_rom_of 0x4000 cpu_abs _ 2 rfl rfl (by decide) (by decide)
  exact ⟨h0, h1, h2, rfl, rfl, rfl, (cpu_cycle_abs (s := cpu_abs) h1 h2).1 9 h0 rfl⟩

/-! ## Add with carry -/

/-- C12, as stated, fails: in `cpu_carry` the carry flag is `1`, `A = 0` and the
instruction is the immediate add of `5`; after the step the accumulator is `5`,
not `(0 + 5 + 1) mod 256 = 6`. -/
theorem adc_ignores_carry :
    cpu_carry.reg_P % 2 = 1 ∧ cpu_carry.reg_A = 0 ∧
    cpu_memory_map_read 0x4000 cpu_carry cpu_carry.reg_PC = some 0x69 ∧
    cpu_memory_map_read 0x4000 cpu_carry (cpu_carry.reg_PC + 1) = some 5 ∧
    cpu_cycle 0x4000 cpu_carry = some (2, { cpu_carry with reg_A := 5, reg_PC := 0x8002 }) ∧
    (5 : Nat) ≠ (cpu_carry.reg_A + 5 + cpu_carry.reg_P % 2) % 256 := by
  have h0 : cpu_memory_map_read 0x4000 cpu_carry cpu_carry.reg_PC = some 0x69 :=
    read_rom_of 0x4000 cpu_carry _ 0 rfl rfl (by decide) (by decide)
  have h1 : cpu_memory_map_read 0x4000 cpu_carry (cpu_carry.reg_PC + 1) = some 5 :=
    read_rom_of 0x4000 cpu_carry _ 1 rfl rfl (by decide) (by decide)
  exact ⟨rfl, rfl, h0, h1, cpu_cycle_imm (s := cpu_carry) h0 h1, by decide⟩

/-- C12, amended: for every state with accumulator `A`, after `cpu_cycle`
executes the immediate add opcode (`0x69`) with operand `m` the accumulator
equals `(A + m) mod 256`; the carry flag is not added, so this is
`(A + m + c) mod 256` when the carry flag `c` (bit 0 of the status register) is
`0`. -/
theorem adc_immediate_sum (PRG_PAGE_SIZE : Nat) (s : CPU_t) (m : Nat)
    (h0 : cpu_memory_map_read PRG_PAGE_SIZE s s.reg_PC = some 0x69)
    (h1 : cpu_memory_map_read PRG_PAGE_SIZE s ((s.reg_PC + 1) % 65536) = some m) :
    cpu_cycle PRG_PAGE_SIZE s =
      some (2, { s with reg_PC := (s.reg_PC + 1 + 1) % 65536, reg_A := (s.reg_A + m) % 256 }) ∧
    (s.reg_P % 2 = 0 → (s.reg_A + m) % 256 = (s.reg_A + m + s.reg_P % 2) % 256) := by
  refine ⟨cpu_cycle_imm h0 h1, fun hc => ?_⟩
  rw [hc, Nat.add_zero]

theorem adc_immediate_sum_witness :
    (cpu_cycle 0x4000 cpu_5050 = some (2, { cpu_5050 with reg_PC := 0x8002, reg_A := 0xA0 }) ∧
      (cpu_5050.reg_P % 2 = 0 → 0xA0 = (0x50 + 0x50 + cpu_5050.reg_P % 2) % 256)) ∧
    (cpu_cycle 0x4000 cpu_ff01 = some (2, { cpu_ff01 with reg_PC := 0x8002, reg_A := 0x00 }) ∧
      (cpu_ff01.reg_P % 2 = 0 → 0x00 = (0xFF + 0x01 + cpu_ff01.reg_P % 2) % 256)) :=
  ⟨adc_immediate_sum 0x4000 cpu_5050 0x50
      (read_rom_of 0x4000 cpu_5050 _ 0 rfl rfl (by decide) (by decide))
      (read_rom_of 0x4000 cpu_5050 _ 1 rfl rfl (by decide) (by decide)),
   adc_immediate_sum 0x4000 cpu_ff01 0x01
      (read_rom_of 0x4000 cpu_ff01 _ 0 rfl rfl (by decide) (by decide))
      (read_rom_of 0x4000 cpu_ff01 _ 1 rfl rfl (by decide) (by decide))⟩

/-- C13, as stated, fails on both examples of the claim.  With `A = 0x50`,
`m = 0x50` and carry clear the step gives `A = 0xA0` and leaves the status
register at `0x34`: Negative (bit 7) and Overflow (bit 6) are `0` although the
result has bit 7 set and both operands are positive.  With `A = 0xFF`,
`m = 0x01` it gives `A = 0x00` and status `0x34`: Carry (bit 0) and Zero
(bit 1) are `0` although `0xFF + 0x01 > 255` and the result is zero. -/
theorem adc_leaves_flags :
    cpu_cycle 0x4000 cpu_5050 = some (2, { cpu_5050 with reg_A := 0xA0, reg_PC := 0x8002 }) ∧
    ({ cpu_5050 with reg_A := 0xA0, reg_PC := 0x8002 } : CPU_t).reg_P = 0x34 ∧
    (0x34 / 128 % 2 = 0 ∧ 0xA0 / 128 % 2 = 1) ∧
    (0x34 / 64 % 2 = 0 ∧ 0x50 / 128 % 2 = 0x50 / 128 % 2 ∧ 0xA0 / 128 % 2 ≠ 0x50 / 128 % 2) ∧
    cpu_cycle 0x4000 cpu_ff01 = some (2, { cpu_ff01 with reg_A := 0x00, reg_PC := 0x8002 }) ∧
    ({ cpu_ff01 with reg_A := 0x00, reg_PC := 0x8002 } : CPU_t).reg_P = 0x34 ∧
    (0x34 % 2 = 0 ∧ 0xFF + 0x01 + 0 > 255) ∧
    (0x34 / 2 % 2 = 0 ∧ (0x00 : Nat) = 0) := by
  refine ⟨?_, rfl, by decide, by decide, ?_, rfl, by decide, by decide⟩
  · exact cpu_cycle_imm (s := cpu_5050)
      (read_rom_of 0x4000 cpu_5050 _ 0 rfl rfl (by decide) (by decide))
      (read_rom_of 0x4000 cpu_5050 _ 1 rfl rfl (by decide) (by decide))
  · exact cpu_cycle_imm (s := cpu_ff01)
      (read_rom_of 0x4000 cpu_ff01 _ 0 rfl rfl (by decide) (by decide))
      (read_rom_of 0x4000 cpu_ff01 _ 1 rfl rfl (by decide) (by decide))

/-- C13, amended: for every state whose cartridge image covers the mapped
window, after `cpu_cycle` executes an add opcode with accumulator `A` the
accumulator is `(A + m) mod 256`, where `m` is the operand of the instruction
(the byte `b1` after the opcode for `0x69`; the byte the bus gives at `b1` for
`0x65`, at `b1 + X` for `0x75`, `0x61` and `0x71`, at the 16-bit address
assembled from `b1` and `b2` for `0x6D`, at that address plus `X` for `0x76` and
plus `Y` for `0x79`), and the status register is what it was before the step:
Zero, Negative, Carry and Overflow keep their values. -/
theorem adc_status_unchanged (PRG_PAGE_SIZE : Nat) (s : CPU_t) (op : Nat)
    (hc : WindowCovered PRG_PAGE_SIZE s)
    (hop : cpu_memory_map_read PRG_PAGE_SIZE s s.reg_PC = some op)
    (hmem : op ∈ dispatch_table) :
    ∃ b1 b2 cyc s1 m,
      cpu_memory_map_read PRG_PAGE_SIZE s ((s.reg_PC + 1) % 65536) = some b1 ∧
      cpu_memory_map_read PRG_PAGE_SIZE s ((s.reg_PC + 2) % 65536) = some b2 ∧
      (op = 0x69 → m = b1) ∧
      (op = 0x65 → cpu_memory_map_read PRG_PAGE_SIZE s b1 = some m) ∧
      (op = 0x75 ∨ op = 0x61 ∨ op = 0x71 →
        cpu_memory_map_read PRG_PAGE_SIZE s ((b1 + s.reg_X) % 65536) = some m) ∧
      (op = 0x6D →
        cpu_memory_map_read PRG_PAGE_SIZE s (((b1 <<< 8) ||| b2) % 65536) = some m) ∧
      (op = 0x76 →
        cpu_memory_map_read PRG_PAGE_SIZE s
          ((((b1 <<< 8) ||| b2) % 65536 + s.reg_X) % 65536) = some m) ∧
      (op = 0x79 →
        cpu_memory_map_read PRG_PAGE_SIZE s
          ((((b1 <<< 8) ||| b2) % 65536 + s.reg_Y) % 65536) = some m) ∧
      cpu_cycle PRG_PAGE_SIZE s = some (cyc, s1) ∧
      s1.reg_A = (s.reg_A + m) % 256 ∧ s1.reg_P = s.reg_P := by
  obtain ⟨b1, b2, h1, h2, c1, c2, ⟨mx, hmx, c3, c4, c5⟩, c6, c7, c8, _⟩ :=
    cpu_cycle_cases hc hop
  simp only [dispatch_table, List.mem_cons, List.mem_singleton, List.mem_nil_iff,
    or_false] at hmem
  rcases hmem with e | e | e | e | e | e | e | e
  · refine ⟨b1, b2, 2, _, b1, h1, h2, fun _ => rfl, ?_, ?_, ?_, ?_, ?_, c1 e, rfl, rfl⟩ <;>
      subst e <;> exact fun h => absurd h (by decide)
  · obtain ⟨m, hm, h⟩ := c2 e
    refine ⟨b1, b2, 3, _, m, h1, h2, ?_, fun _ => hm, ?_, ?_, ?_, ?_, h, rfl, rfl⟩ <;>
      subst e <;> exact fun h => absurd h (by decide)
  · refine ⟨b1, b2, 4, _, mx, h1, h2, ?_, ?_, fun _ => hmx, ?_, ?_, ?_, c3 e, rfl, rfl⟩ <;>
      subst e <;> exact fun h => absurd h (by decide)
  · obtain ⟨m, hm, h⟩ := c6 e
    refine ⟨b1, b2, 4, _, m, h1, h2, ?_, ?_, ?_, fun _ => hm, ?_, ?_, h, rfl, rfl⟩ <;>
      subst e <;> exact fun h => absurd h (by decide)
  · obtain ⟨m, hm, h⟩ := c7 e
    refine ⟨b1, b2, 4, _, m, h1, h2, ?_, ?_, ?_, ?_, fun _ => hm, ?_, h, rfl, rfl⟩ <;>
      subst e <;> exact fun h => absurd h (by decide)
  · obtain ⟨m, hm, h⟩ := c8 e
    refine ⟨b1, b2, 4, _, m, h1, h2, ?_, ?_, ?_, ?_, ?_, fun _ => hm, h, rfl, rfl⟩ <;>
      subst e <;> exact fun h => absurd h (by decide)
  · refine ⟨b1, b2, 6, _, mx, h1, h2, ?_, ?_, fun _ => hmx, ?_, ?_, ?_, c4 e, rfl, rfl⟩ <;>
      subst e <;> exact fun h => absurd h (by decide)
  · refine ⟨b1, b2, 5, _, mx, h1, h2, ?_, ?_, fun _ => hmx, ?_, ?_, ?_, c5 e, rfl, rfl⟩ <;>
      subst e <;> exact fun h => absurd h (by decide)

theorem adc_status_unchanged_witness :
    WindowCovered 0x4000 cpu_5050 ∧
    cpu_memory_map_read 0x4000 cpu_5050 cpu_5050.reg_PC = some 0x69 ∧
    0x69 ∈ dispatch_table ∧
    ∃ b1 b2 cyc s1 m,
      cpu_memory_map_read 0x4000 cpu_5050 ((cpu_5050.reg_PC + 1) % 65536) = some b1 ∧
      cpu_memory_map_read 0x4000 cpu_5050 ((cpu_5050.reg_PC + 2) % 65536) = some b2 ∧
      (0x69 = 0x69 → m = b1) ∧
      (0x69 = 0x65 → cpu_memory_map_read 0x4000 cpu_5050 b1 = some m) ∧
      (0x69 = 0x75 ∨ 0x69 = 0x61 ∨ 0x69 = 0x71 →
        cpu_memory_map_read 0x4000 cpu_5050 ((b1 + cpu_5050.reg_X) % 65536) = some m) ∧
      (0x69 = 0x6D →
        cpu_memory_map_read 0x4000 cpu_5050 (((b1 <<< 8) ||| b2) % 65536) = some m) ∧
      (0x69 = 0x76 →
        cpu_memory_map_read 0x4000 cpu_5050
          ((((b1 <<< 8) ||| b2) % 65536 + cpu_5050.reg_X) % 65536) = some m) ∧
      (0x69 = 0x79 →
        cpu_memory_map_read 0x4000 cpu_5050
          ((((b1 <<< 8) ||| b2) % 65536 + cpu_5050.reg_Y) % 65536) = some m) ∧
      cpu_cycle 0x4000 cpu_5050 = some (cyc, s1) ∧
      s1.reg_A = (cpu_5050.reg_A + m) % 256 ∧ s1.reg_P = cpu_5050.reg_P :=
  ⟨windowCovered_of_cartridge [0x69, 0x50] rfl rfl (by decide),
   read_rom_of 0x4000 cpu_5050 [0x69, 0x50] 0 rfl rfl (by decide) (by decide),
   by decide,
   adc_status_unchanged 0x4000 cpu_5050 0x69
     (windowCovered_of_cartridge [0x69, 0x50] rfl rfl (by decide))
     (read_rom_of 0x4000 cpu_5050 [0x69, 0x50] 0 rfl rfl (by decide) (by decide))
     (by decide)⟩

/-! ## Cycle counts and page crossing -/

/-- C14, on concrete steps.  Absolute,X add `76 01 01` (base `0x0101`): with
`X = 0xFF` the indexed address `0x0200` is on another page than the base, with
`X = 0` it is on the same page, and the step returns `4` cycles both times.
Indirect-indexed add `71 10` with the pointer `0x00FF` at `0x10`: with `Y = 1`
the address `0x0100` is on another page than the pointer, with `Y = 0` it is
not, and the step returns `5` cycles both times. -/
theorem page_cross_no_penalty :
    ((0x0101 + 0xFF) / 256 ≠ 0x0101 / 256 ∧ (0x0101 + 0) / 256 = 0x0101 / 256) ∧
    cpu_cycle 0x4000 (cpu_abx 0xFF) =
      some (4, { cpu_abx 0xFF with reg_A := 0, reg_PC := 0x8003 }) ∧
    cpu_cycle 0x4000 (cpu_abx 0) =
      some (4, { cpu_abx 0 with reg_A := 0, reg_PC := 0x8003 }) ∧
    ((0x00FF + 1) / 256 ≠ 0x00FF / 256 ∧ (0x00FF + 0) / 256 = 0x00FF / 256) ∧
    cpu_cycle 0x4000 (cpu_izy_page 1) =
      some (5, { cpu_izy_page 1 with reg_A := 0xFF, reg_PC := 0x8002 }) ∧
    cpu_cycle 0x4000 (cpu_izy_page 0) =
      some (5, { cpu_izy_page 0 with reg_A := 0xFF, reg_PC := 0x8002 }) := by
  refine ⟨by decide, ?_, ?_, by decide, ?_, ?_⟩
  · exact (cpu_cycle_abs (s := cpu_abx 0xFF) (p := 0x01) (q := 0x01)
      (read_rom_of 0x4000 _ [0x76, 0x01, 0x01] 1 rfl rfl (by decide) (by decide))
      (read_rom_of 0x4000 _ [0x76, 0x01, 0x01] 2 rfl rfl (by decide) (by decide))).2.1 0
      (read_rom_of 0x4000 _ [0x76, 0x01, 0x01] 0 rfl rfl (by decide) (by decide)) rfl
  · exact (cpu_cycle_abs (s := cpu_abx 0) (p := 0x01) (q := 0x01)
      (read_rom_of 0x4000 _ [0x76, 0x01, 0x01] 1 rfl rfl (by decide) (by decide))
      (read_rom_of 0x4000 _ [0x76, 0x01, 0x01] 2 rfl rfl (by decide) (by decide))).2.1 0
      (read_rom_of 0x4000 _ [0x76, 0x01, 0x01] 0 rfl rfl (by decide) (by decide)) rfl
  · exact (cpu_cycle_zpx (s := cpu_izy_page 1) (d := 0x10) (m := 0xFF)
      (read_rom_of 0x4000 _ [0x71, 0x10] 1 rfl rfl (by decide) (by decide)) rfl).2.2
      (read_rom_of 0x4000 _ [0x71, 0x10] 0 rfl rfl (by decide) (by decide))
  · exact (cpu_cycle_zpx (s := cpu_izy_page 0) (d := 0x10) (m := 0xFF)
      (read_rom_of 0x4000 _ [0x71, 0x10] 1 rfl rfl (by decide) (by decide)) rfl).2.2
      (read_rom_of 0x4000 _ [0x71, 0x10] 0 rfl rfl (by decide) (by decide))

/-! ## Indirect addressing -/

/-- C15, on the indexed-indirect add `61 10` with `X = 2`: the zero-page
location `(0x10 + 2) mod 256 = 0x12` holds `0x34` and the next one holds `0x02`,
so the pointer is `0x0234`, where the byte `7` is stored.  The step adds `0x34`,
the byte at `0x0012` itself: the pointer is not dereferenced. -/
theorem indexed_indirect_no_deref :
    cpu_memory_map_read 0x4000 cpu_izx cpu_izx.reg_PC = some 0x61 ∧
    cpu_memory_map_read 0x4000 cpu_izx (cpu_izx.reg_PC + 1) = some 0x10 ∧
    cpu_izx.reg_X = 2 ∧ cpu_izx.reg_A = 0 ∧
    cpu_memory_map_read 0x4000 cpu_izx ((0x10 + 2) % 256) = some 0x34 ∧
    cpu_memory_map_read 0x4000 cpu_izx ((0x10 + 2) % 256 + 1) = some 0x02 ∧
    cpu_memory_map_read 0x4000 cpu_izx (0x34 + 256 * 0x02) = some 7 ∧
    cpu_cycle 0x4000 cpu_izx = some (6, { cpu_izx with reg_A := 0x34, reg_PC := 0x8002 }) := by
  have h0 : cpu_memory_map_read 0x4000 cpu_izx cpu_izx.reg_PC = some 0x61 :=
    read_rom_of 0x4000 cpu_izx [0x61, 0x10] 0 rfl rfl (by decide) (by decide)
  have h1 : cpu_memory_map_read 0x4000 cpu_izx (cpu_izx.reg_PC + 1) = some 0x10 :=
    read_rom_of 0x4000 cpu_izx [0x61, 0x10] 1 rfl rfl (by decide) (by decide)
  exact ⟨h0, h1, rfl, rfl, rfl, rfl, rfl,
    (cpu_cycle_zpx (s := cpu_izx) (d := 0x10) (m := 0x34) h1 rfl).2.1 h0⟩

/-- C16, on the indirect-indexed add `71 10` with `Y = 1`: the zero-page pointer
at `0x10` is `0x0300`, the byte at `0x0300 + 1` is `7`.  With `X = 2` the step
adds `9`, the byte at `0x10 + 2`; with `X = 3` and everything else equal it adds
`0`, the byte at `0x10 + 3`.  The operand address is the operand byte plus `X`;
neither the pointer nor `Y` enters it. -/
theorem indirect_indexed_uses_x :
    cpu_memory_map_read 0x4000 (cpu_izy 2) (cpu_izy 2).reg_PC = some 0x71 ∧
    cpu_memory_map_read 0x4000 (cpu_izy 2) ((cpu_izy 2).reg_PC + 1) = some 0x10 ∧
    (cpu_izy 2).reg_Y = 1 ∧ (cpu_izy 2).reg_A = 0 ∧
    cpu_memory_map_read 0x4000 (cpu_izy 2) 0x10 = some 0x00 ∧
    cpu_memory_map_read 0x4000 (cpu_izy 2) 0x11 = some 0x03 ∧
    cpu_memory_map_read 0x4000 (cpu_izy 2) ((0x00 + 256 * 0x03 + 1) % 65536) = some 7 ∧
    cpu_cycle 0x4000 (cpu_izy 2) =
      some (5, { cpu_izy 2 with reg_A := 9, reg_PC := 0x8002 }) ∧
    cpu_cycle 0x4000 (cpu_izy 3) =
      some (5, { cpu_izy 3 with reg_A := 0, reg_PC := 0x8002 }) := by
  have h0 : ∀ x, cpu_memory_map_read 0x4000 (cpu_izy x) (cpu_izy x).reg_PC = some 0x71 :=
    fun x => read_rom_of 0x4000 (cpu_izy x) [0x71, 0x10] 0 rfl rfl (by decide) (by decide)
  have h1 : ∀ x, cpu_memory_map_read 0x4000 (cpu_izy x) ((cpu_izy x).reg_PC + 1) = some 0x10 :=
    fun x => read_rom_of 0x4000 (cpu_izy x) [0x71, 0x10] 1 rfl rfl (by decide) (by decide)
  exact ⟨h0 2, h1 2, rfl, rfl, rfl, rfl, rfl,
    (cpu_cycle_zpx (s := cpu_izy 2) (d := 0x10) (m := 9) (h1 2) rfl).2.2 (h0 2),
    (cpu_cycle_zpx (s := cpu_izy 3) (d := 0x10) (m := 0) (h1 3) rfl).2.2 (h0 3)⟩

/-! ## Opcodes outside the dispatch table -/

/-- C17, as stated, fails: in `cpu_nop` the byte at the program counter is
`0xEA`, which is not in the dispatch table; `cpu_cycle` returns the cycle count
`2`, the count it returns for the immediate add, and the state after the step
has the program counter `0x8001`, not `0x8000`. -/
theorem undefined_opcode_silent :
    cpu_memory_map_read 0x4000 cpu_nop cpu_nop.reg_PC = some 0xEA ∧
    0xEA ∉ dispatch_table ∧
    cpu_cycle 0x4000 cpu_nop = some (2, cpu_nop_step) ∧
    cpu_nop_step.reg_PC = 0x8001 ∧ cpu_nop.reg_PC = 0x8000 ∧
    cpu_nop_step ≠ cpu_nop ∧
    cpu_cycle 0x4000 cpu_carry = some (2, { cpu_carry with reg_A := 5, reg_PC := 0x8002 }) := by
  have h0 : cpu_memory_map_read 0x4000 cpu_nop cpu_nop.reg_PC = some 0xEA :=
    read_rom_of 0x4000 cpu_nop [0xEA, 0x6D, 0x01, 0x02] 0 rfl rfl (by decide) (by decide)
  refine ⟨h0, by decide, cpu_cycle_other h0 (by decide), rfl, rfl, ?_, ?_⟩
  · intro h
    have hpc : cpu_nop_step.reg_PC = cpu_nop.reg_PC := by rw [h]
    exact absurd hpc (by decide)
  · exact cpu_cycle_imm (s := cpu_carry)
      (read_rom_of 0x4000 cpu_carry [0x69, 0x05] 0 rfl rfl (by decide) (by decide))
      (read_rom_of 0x4000 cpu_carry [0x69, 0x05] 1 rfl rfl (by decide) (by decide))

/-- C17, amended: for every state in which the byte fetched at the program
counter is not one of the opcodes of the dispatch table, `cpu_cycle` returns the
cycle count `2` and the state after the step is the state before the fetch with
the program counter advanced by one (modulo `65536`); no failure is reported. -/
theorem undefined_opcode_step (PRG_PAGE_SIZE : Nat) (s : CPU_t) (op : Nat)
    (hop : cpu_memory_map_read PRG_PAGE_SIZE s s.reg_PC = some op)
    (hno : op ∉ dispatch_table) :
    cpu_cycle PRG_PAGE_SIZE s = some (2, { s with reg_PC := (s.reg_PC + 1) % 65536 }) :=
  cpu_cycle_other hop hno

theorem undefined_opcode_step_witness :
    cpu_memory_map_read 0x4000 cpu_nop cpu_nop.reg_PC = some 0xEA ∧
    0xEA ∉ dispatch_table ∧
    cpu_cycle 0x4000 cpu_nop = some (2, { cpu_nop with reg_PC := 0x8001 }) :=
  ⟨read_rom_of 0x4000 cpu_nop [0xEA, 0x6D, 0x01, 0x02] 0 rfl rfl (by decide) (by decide),
   by decide,
   undefined_opcode_step 0x4000 cpu_nop 0xEA
     (read_rom_of 0x4000 cpu_nop [0xEA, 0x6D, 0x01, 0x02] 0 rfl rfl (by decide) (by decide))
     (by decide)⟩

/-! ## Program counter -/

/-- C18: for every state whose cartridge image covers the mapped window and
whose fetched opcode is in the dispatch table, `cpu_cycle` returns and the
program counter afterwards is `(PC + 1 + n) mod 65536`, with `n = 1` for the
immediate, zero-page, zero-page-indexed, indexed-indirect and indirect-indexed
opcodes and `n = 2` for the absolute and absolute-indexed ones; the operand `m`
that is added is obtained from the `n` bytes the bus gives at `PC + 1`, ...,
`PC + n` (modulo `65536`) and from nothing else in the instruction stream. -/
theorem step_advances_pc (PRG_PAGE_SIZE : Nat) (s : CPU_t) (op : Nat)
    (hc : WindowCovered PRG_PAGE_SIZE s)
    (hop : cpu_memory_map_read PRG_PAGE_SIZE s s.reg_PC = some op) :
    (op ∈ [0x69, 0x65, 0x75, 0x61, 0x71] →
      ∃ b1 cyc m,
        cpu_memory_map_read PRG_PAGE_SIZE s ((s.reg_PC + 1) % 65536) = some b1 ∧
        cpu_cycle PRG_PAGE_SIZE s =
          some (cyc, { s with reg_PC := (s.reg_PC + 1 + 1) % 65536,
                              reg_A := (s.reg_A + m) % 256 }) ∧
        (op = 0x69 → m = b1) ∧
        (op = 0x65 → cpu_memory_map_read PRG_PAGE_SIZE s b1 = some m) ∧
        (op = 0x75 ∨ op = 0x61 ∨ op = 0x71 →
          cpu_memory_map_read PRG_PAGE_SIZE s ((b1 + s.reg_X) % 65536) = some m)) ∧
    (op ∈ [0x6D, 0x76, 0x79] →
      ∃ b1 b2 cyc m,
        cpu_memory_map_read PRG_PAGE_SIZE s ((s.reg_PC + 1) % 65536) = some b1 ∧
        cpu_memory_map_read PRG_PAGE_SIZE s ((s.reg_PC + 2) % 65536) = some b2 ∧
        cpu_cycle PRG_PAGE_SIZE s =
          some (cyc, { s with reg_PC := (s.reg_PC + 1 + 2) % 65536,
                              reg_A := (s.reg_A + m) % 256 }) ∧
        (op = 0x6D →
          cpu_memory_map_read PRG_PAGE_SIZE s (((b1 <<< 8) ||| b2) % 65536) = some m) ∧
        (op = 0x76 →
          cpu_memory_map_read PRG_PAGE_SIZE s
            ((((b1 <<< 8) ||| b2) % 65536 + s.reg_X) % 65536) = some m) ∧
        (op = 0x79 →
          cpu_memory_map_read PRG_PAGE_SIZE s
            ((((b1 <<< 8) ||| b2) % 65536 + s.reg_Y) % 65536) = some m)) := by
  obtain ⟨b1, b2, h1, h2, c1, c2, ⟨mx, hmx, c3, c4, c5⟩, c6, c7, c8, _⟩ :=
    cpu_cycle_cases hc hop
  refine ⟨fun hmem => ?_, fun hmem => ?_⟩
  · simp only [List.mem_cons, List.mem_singleton, List.mem_nil_iff, or_false] at hmem
    rcases hmem with e | e | e | e | e
    · refine ⟨b1, 2, b1, h1, c1 e, fun _ => rfl, ?_, ?_⟩ <;> subst e <;>
        exact fun h => absurd h (by decide)
    · obtain ⟨m, hm, h⟩ := c2 e
      refine ⟨b1, 3, m, h1, h, ?_, fun _ => hm, ?_⟩ <;> subst e <;>
        exact fun h => absurd h (by decide)
    · refine ⟨b1, 4, mx, h1, c3 e, ?_, ?_, fun _ => hmx⟩ <;> subst e <;>
        exact fun h => absurd h (by decide)
    · refine ⟨b1, 6, mx, h1, c4 e, ?_, ?_, fun _ => hmx⟩ <;> subst e <;>
        exact fun h => absurd h (by decide)
    · refine ⟨b1, 5, mx, h1, c5 e, ?_, ?_, fun _ => hmx⟩ <;> subst e <;>
        exact fun h => absurd h (by decide)
  · simp only [List.mem_cons, List.mem_singleton, List.mem_nil_iff, or_false] at hmem
    rcases hmem with e | e | e
    · obtain ⟨m, hm, h⟩ := c6 e
      refine ⟨b1, b2, 4, m, h1, h2, h, fun _ => hm, ?_, ?_⟩ <;> subst e <;>
        exact fun h => absurd h (by decide)
    · obtain ⟨m, hm, h⟩ := c7 e
      refine ⟨b1, b2, 4, m, h1, h2, h, ?_, fun _ => hm, ?_⟩ <;> subst e <;>
        exact fun h => absurd h (by decide)
    · obtain ⟨m, hm, h⟩ := c8 e
      refine ⟨b1, b2, 4, m, h1, h2, h, ?_, ?_, fun _ => hm⟩ <;> subst e <;>
        exact fun h => absurd h (by decide)

theorem step_advances_pc_witness :
    WindowCovered 0x4000 cpu_nop_step ∧
    cpu_memory_map_read 0x4000 cpu_nop_step cpu_nop_step.reg_PC = some 0x6D ∧
    0x6D ∈ [0x6D, 0x76, 0x79] ∧
    ∃ b1 b2 cyc m,
      cpu_memory_map_read 0x4000 cpu_nop_step ((cpu_nop_step.reg_PC + 1) % 65536) = some b1 ∧
      cpu_memory_map_read 0x4000 cpu_nop_step ((cpu_nop_step.reg_PC + 2) % 65536) = some b2 ∧
      cpu_cycle 0x4000 cpu_nop_step =
        some (cyc, { cpu_nop_step with reg_PC := (cpu_nop_step.reg_PC + 1 + 2) % 65536,
                                       reg_A := (cpu_nop_step.reg_A + m) % 256 }) ∧
      (0x6D = 0x6D →
        cpu_memory_map_read 0x4000 cpu_nop_step (((b1 <<< 8) ||| b2) % 65536) = some m) ∧
      (0x6D = 0x76 →
        cpu_memory_map_read 0x4000 cpu_nop_step
          ((((b1 <<< 8) ||| b2) % 65536 + cpu_nop_step.reg_X) % 65536) = some m) ∧
      (0x6D = 0x79 →
        cpu_memory_map_read 0x4000 cpu_nop_step
          ((((b1 <<< 8) ||| b2) % 65536 + cpu_nop_step.reg_Y) % 65536) = some m) :=
  ⟨windowCovered_of_cartridge [0xEA, 0x6D, 0x01, 0x02] rfl rfl (by decide),
   read_rom_of 0x4000 cpu_nop_step [0xEA, 0x6D, 0x01, 0x02] 1 rfl rfl (by decide) (by decide),
   by decide,
   (step_advances_pc 0x4000 cpu_nop_step 0x6D
     (windowCovered_of_cartridge [0xEA, 0x6D, 0x01, 0x02] rfl rfl (by decide))
     (read_rom_of 0x4000 cpu_nop_step [0xEA, 0x6D, 0x01, 0x02] 1 rfl rfl (by decide)
       (by decide))).2 (by decide)⟩

/-! ## Frame of a step: the claim -/

/-- C19: for every state and every opcode byte, a step of `cpu_cycle` leaves
index X, index Y, the stack pointer, the status register, system RAM, the
picture unit, the audio unit, the cartridge and the bank selector as they were
(only the accumulator and the program counter can change), and the cycle count
it returns is one of 2, 3, 4, 5, 6; when the cartridge image covers the mapped
window the step does return. -/
theorem step_frame (PRG_PAGE_SIZE : Nat) (s : CPU_t) :
    (∀ cyc s1, cpu_cycle PRG_PAGE_SIZE s = some (cyc, s1) →
      s1.reg_X = s.reg_X ∧ s1.reg_Y = s.reg_Y ∧ s1.reg_S = s.reg_S ∧ s1.reg_P = s.reg_P ∧
      s1.memory = s.memory ∧ s1.ppu = s.ppu ∧ s1.apu = s.apu ∧
      s1.cartridge = s.cartridge ∧ s1.cartridge_bank = s.cartridge_bank ∧
      cyc ∈ [2, 3, 4, 5, 6]) ∧
    (WindowCovered PRG_PAGE_SIZE s → ∃ cyc s1, cpu_cycle PRG_PAGE_SIZE s = some (cyc, s1)) := by
  refine ⟨fun cyc s1 h => ?_, fun hc => cpu_cycle_returns hc⟩
  obtain ⟨f1, f2, f3, f4, f5, f6, f7, f8, f9⟩ := cpu_cycle_frame h
  exact ⟨f2, f3, f5, f4, f1, f6, f7, f8, f9, cpu_cycle_count h⟩

theorem step_frame_witness :
    cpu_cycle 0x4000 cpu_nop = some (2, cpu_nop_step) ∧
    (cpu_nop_step.reg_X = cpu_nop.reg_X ∧ cpu_nop_step.reg_Y = cpu_nop.reg_Y ∧
      cpu_nop_step.reg_S = cpu_nop.reg_S ∧ cpu_nop_step.reg_P = cpu_nop.reg_P ∧
      cpu_nop_step.memory = cpu_nop.memory ∧ cpu_nop_step.ppu = cpu_nop.ppu ∧
      cpu_nop_step.apu = cpu_nop.apu ∧ cpu_nop_step.cartridge = cpu_nop.cartridge ∧
      cpu_nop_step.cartridge_bank = cpu_nop.cartridge_bank ∧ 2 ∈ [2, 3, 4, 5, 6]) ∧
    WindowCovered 0x4000 cpu_nop ∧
    ∃ cyc s1, cpu_cycle 0x4000 cpu_nop = some (cyc, s1) :=
  ⟨cpu_cycle_other
      (read_rom_of 0x4000 cpu_nop [0xEA, 0x6D, 0x01, 0x02] 0 rfl rfl (by decide) (by decide))
      (by decide),
   (step_frame 0x4000 cpu_nop).1 2 cpu_nop_step
     (cpu_cycle_other
       (read_rom_of 0x4000 cpu_nop [0xEA, 0x6D, 0x01, 0x02] 0 rfl rfl (by decide) (by decide))
       (by decide)),
   windowCovered_of_cartridge [0xEA, 0x6D, 0x01, 0x02] rfl rfl (by decide),
   (step_frame 0x4000 cpu_nop).2
     (windowCovered_of_cartridge [0xEA, 0x6D, 0x01, 0x02] rfl rfl (by decide))⟩

/-! ## Program-storage reads and the size of the image -/

/-- C20: if the cartridge image holds at least
`cartridge_bank * PRG_PAGE_SIZE + 0x7FFF` bytes, then for every address in
`[0x8000, 0xFFFE]` the index `cartridge_bank * PRG_PAGE_SIZE + (address - 0x8000)`
is inside the image and the read returns a byte; conversely, if all these
indices are inside the image then it holds that many bytes.  An image of exactly
`cartridge_bank + 1` pages with `PRG_PAGE_SIZE < 0x7FFF` is not enough: some
address of the window has its index at or past the end of the image, and the
lookup at that address fails (the index being within 32 bits). -/
theorem prg_reads_in_bounds (PRG_PAGE_SIZE : Nat) (cpu : CPU_t) :
    (WindowCovered PRG_PAGE_SIZE cpu → ∀ a, 0x8000 ≤ a → a ≤ 0xFFFE →
      cpu.cartridge_bank * PRG_PAGE_SIZE + (a - 0x8000) < cpu.cartridge.prg_data.length ∧
      ∃ v, cpu_memory_map_read PRG_PAGE_SIZE cpu a = some v) ∧
    ((∀ a, 0x8000 ≤ a → a ≤ 0xFFFE →
        cpu.cartridge_bank * PRG_PAGE_SIZE + (a - 0x8000) < cpu.cartridge.prg_data.length) →
      WindowCovered PRG_PAGE_SIZE cpu) ∧
    (cpu.cartridge.prg_data.length = (cpu.cartridge_bank + 1) * PRG_PAGE_SIZE →
      PRG_PAGE_SIZE < 0x7FFF →
      ∃ a, 0x8000 ≤ a ∧ a ≤ 0xFFFE ∧
        cpu.cartridge.prg_data.length ≤ cpu.cartridge_bank * PRG_PAGE_SIZE + (a - 0x8000) ∧
        (cpu.cartridge_bank * PRG_PAGE_SIZE + (a - 0x8000) < 2 ^ 32 →
          cpu_memory_map_read PRG_PAGE_SIZE cpu a = none)) := by
  refine ⟨fun hc a h1 h2 => ⟨?_, read_defined hc a⟩, fun h => ?_, fun hlen hP => ?_⟩
  · unfold WindowCovered at hc
    omega
  · have := h 0xFFFE (by decide) (by decide)
    unfold WindowCovered
    omega
  · have hl : cpu.cartridge.prg_data.length
        = cpu.cartridge_bank * PRG_PAGE_SIZE + PRG_PAGE_SIZE := by
      rw [hlen, Nat.add_mul, Nat.one_mul]
    refine ⟨0x8000 + PRG_PAGE_SIZE, by omega, by omega, by omega, fun hfit => ?_⟩
    rw [read_prg PRG_PAGE_SIZE cpu (0x8000 + PRG_PAGE_SIZE) (by omega),
      prg_index_eq _ _ _ hfit]
    exact List.getElem?_eq_none (by omega)

theorem prg_reads_in_bounds_witness :
    (WindowCovered 0x4000 cpu_nop ∧ (0x8000 : Nat) ≤ 0xFFFE ∧
      cpu_nop.cartridge_bank * 0x4000 + (0xFFFE - 0x8000) < cpu_nop.cartridge.prg_data.length ∧
      ∃ v, cpu_memory_map_read 0x4000 cpu_nop 0xFFFE = some v) ∧
    (cpu_demo_step.cartridge.prg_data.length = (cpu_demo_step.cartridge_bank + 1) * 8 ∧
      (8 : Nat) < 0x7FFF ∧
      ∃ a, 0x8000 ≤ a ∧ a ≤ 0xFFFE ∧
        cpu_demo_step.cartridge.prg_data.length
          ≤ cpu_demo_step.cartridge_bank * 8 + (a - 0x8000) ∧
        (cpu_demo_step.cartridge_bank * 8 + (a - 0x8000) < 2 ^ 32 →
          cpu_memory_map_read 8 cpu_demo_step a = none)) :=
  ⟨⟨windowCovered_of_cartridge [0xEA, 0x6D, 0x01, 0x02] rfl rfl (by decide), by decide,
    (prg_reads_in_bounds 0x4000 cpu_nop).1
      (windowCovered_of_cartridge [0xEA, 0x6D, 0x01, 0x02] rfl rfl (by decide))
      0xFFFE (by decide) (by decide)⟩,
   ⟨by decide, by decide,
    (prg_reads_in_bounds 8 cpu_demo_step).2.2 (by decide) (by decide)⟩⟩

end NTS
